import Mathlib

/-!
# Account setup wizard of the desktop sync client

A shallow embedding of `src/gui/owncloudsetupwizard.cpp`: the slots of
`OwncloudSetupWizard` and the redirect handling of `DetermineAuthTypeJob`.

Conventions of the embedding.

* `QString` is a list of characters; `endsWith`, `chop`, `left`, `contains`
  are the list operations of the same meaning.
* `QNetworkReply::NetworkError` is the integer value of the Qt enumerator,
  because the source compares it with integer literals (`error == 202`).
* Every call the wizard makes on a collaborator that is not part of the file
  (the wizard pages, the account manager, the folder manager, the network
  jobs, the file system) is recorded, in program order, in a trace of
  `Effect`s carried by the state.
* Translated user-visible strings (`tr("...").arg(...)`) are the constructors
  of `Msg`, one per source template, carrying the `arg` values.
-/

namespace OCC

/-! ## Qt value types -/

/-- A `QString`, as its sequence of characters. -/
abbrev QString := List Char

/-- `QString::endsWith(suffix)`. -/
def endsWith (s suffix : QString) : Bool := suffix.isSuffixOf s

/-- `QString::chop(n)`: removes `n` characters from the end of the string. -/
def chop (s : QString) (n : Nat) : QString := s.take (s.length - n)

/-- `QString::left(n)`: the `n` leftmost characters. -/
def left (s : QString) (n : Nat) : QString := s.take n

/-- Lower-casing of a string, character by character. -/
def toLower (s : QString) : QString := s.map Char.toLower

/-- `QString::contains(needle)`: `needle` occurs as a contiguous substring. -/
def contains : QString → QString → Bool
  | [], needle => needle.isEmpty
  | c :: cs, needle => needle.isPrefixOf (c :: cs) || contains cs needle

/-- A `QUrl`, by components.  An absent port is `-1`, an absent query or
fragment is the empty string. -/
structure QUrl where
  scheme : QString
  host : QString
  port : Int
  path : QString
  query : QString
  fragment : QString
  deriving DecidableEq, Repr

namespace QUrl

/-- The default-constructed `QUrl()`; also the value after `QUrl::clear()`. -/
def empty : QUrl := ⟨[], [], -1, [], [], []⟩

/-- `QUrl::clear()`. -/
def clear (_u : QUrl) : QUrl := empty

/-- `QUrl::isEmpty()`: the URL has no data. -/
def isEmpty (u : QUrl) : Bool := decide (u = empty)

/-- `QUrl::setPath(p)`. -/
def setPath (u : QUrl) (p : QString) : QUrl := { u with path := p }

/-- Decimal digits of a natural number. -/
def digits (n : Nat) : QString := (Nat.toDigits 10 n)

/-- `QUrl::toString()`: scheme, authority, path, query and fragment, each
with its delimiter when present. -/
def toString (u : QUrl) : QString :=
  (if u.scheme.isEmpty then [] else u.scheme ++ [':'])
  ++ (if u.host.isEmpty then [] else
        ['/', '/'] ++ u.host ++ (if u.port < 0 then [] else ':' :: digits u.port.toNat))
  ++ u.path
  ++ (if u.query.isEmpty then [] else '?' :: u.query)
  ++ (if u.fragment.isEmpty then [] else '#' :: u.fragment)

end QUrl

/-- The type `QNetworkReply::NetworkError`, by enumerator value. -/
abbrev NetworkError := Int

namespace QNetworkReply
def NoError : NetworkError := 0
def ConnectionRefusedError : NetworkError := 1
def HostNotFoundError : NetworkError := 3
def TimeoutError : NetworkError := 4
def OperationCanceledError : NetworkError := 5
def ContentOperationNotPermittedError : NetworkError := 202
def ContentNotFoundError : NetworkError := 203
def AuthenticationRequiredError : NetworkError := 204
end QNetworkReply

/-- The part of a finished `QNetworkReply` the wizard reads. -/
structure Reply where
  /-- `reply->url()` -/
  url : QUrl
  /-- `reply->error()` -/
  error : NetworkError
  /-- `reply->errorString()` -/
  errorString : QString
  /-- `reply->attribute(RedirectionTargetAttribute).toUrl()`; empty when the
  attribute is not set -/
  redirectionTarget : QUrl
  /-- names of the raw headers of the reply -/
  rawHeaders : List QString
  /-- `reply->readAll()` -/
  body : QString
  deriving DecidableEq, Repr

/-- `QNetworkReply::hasRawHeader(name)`; header names compare without regard
to letter case. -/
def Reply.hasRawHeader (r : Reply) (name : QString) : Bool :=
  r.rawHeaders.any (fun h => toLower h == toLower name)

/-! ## `OwncloudSetupWizard::checkDowngradeAdvised` -/

/-- `OwncloudSetupWizard::checkDowngradeAdvised(reply)`. -/
def checkDowngradeAdvised (reply : Reply) : Bool :=
  if reply.url.scheme ≠ "https".toList then
    false
  else if reply.error = QNetworkReply.NoError
      ∨ reply.error = QNetworkReply.ContentNotFoundError
      ∨ reply.error = QNetworkReply.AuthenticationRequiredError
      ∨ reply.error = QNetworkReply.HostNotFoundError then
    false
  else if reply.hasRawHeader "Strict-Transport-Security".toList then
    false
  else
    true

/-! ## The wizard and its collaborators -/

/-- Page identifiers of `WizardCommon`. -/
inductive PageId
  | Page_ServerSetup
  | Page_HttpCreds
  | Page_ShibbolethCreds
  | Page_AdvancedSetup
  | Page_Result
  deriving DecidableEq, Repr

/-- The draft account held by the wizard (`_ocWizard->account()`). -/
structure Account where
  /-- `account->url()` -/
  url : QUrl
  /-- `account->davPath()`, a configuration constant such as
  `remote.php/webdav/` -/
  davPath : QString
  /-- `account->serverVersion()` -/
  serverVersion : QString
  /-- name of the credentials type attached to the account -/
  credentials : QString
  deriving DecidableEq, Repr

/-- The type `FolderDefinition`, with the fields the wizard fills in. -/
structure FolderDefinition where
  localPath : QString
  targetPath : QString
  ignoreHiddenFiles : Bool
  deriving DecidableEq, Repr

/-- User-visible texts of the wizard, one constructor per `tr(...)` template
of the source, with the values substituted by `arg`. -/
inductive Msg
  /-- "The authenticated request to the server was redirected to '%1'. The URL
  is bad, the server is misconfigured." -/
  | redirectedMisconfigured (url : QString)
  /-- "Access forbidden by server. To verify that you have proper access,
  click here to access the service with your browser." -/
  | accessForbidden (url : QString)
  /-- `errorMessage(reply->errorString(), reply->readAll())` -/
  | errorMessage (errorString body : QString)
  /-- "There was an invalid response to an authenticated webdav request" -/
  | invalidResponse
  /-- "Local sync folder %1 already exists, setting it up for sync." -/
  | localFolderExists (localFolder : QString)
  /-- "Creating local sync folder %1..." followed by "ok" or "failed." -/
  | creatingLocalFolder (localFolder : QString) (ok : Bool)
  /-- "Could not create local folder %1" -/
  | couldNotCreateLocalFolder (localFolder : QString)
  /-- "No remote folder specified!" -/
  | noRemoteFolderSpecified
  /-- "Error: %1" -/
  | errorText (errorString : QString)
  /-- "creating folder on ownCloud: %1" -/
  | creatingFolderOnOwnCloud (remoteFolder : QString)
  /-- "Remote folder %1 created successfully." -/
  | remoteFolderCreated (remoteFolder : QString)
  /-- "The remote folder %1 already exists. Connecting it for syncing." -/
  | remoteFolderAlreadyExists (remoteFolder : QString)
  /-- "The folder creation resulted in HTTP error code %1" -/
  | httpErrorCode (code : Int)
  /-- "The remote folder creation failed because the provided credentials are
  wrong! Please go back and check your credentials." -/
  | credentialsWrong
  /-- "Remote folder creation failed probably because the provided credentials
  are wrong. Please go back and check your credentials." -/
  | credentialsProbablyWrong
  /-- "Remote folder %1 creation failed with error %2." -/
  | creationFailed (remoteFolder : QString) (code : Int)
  /-- "A sync connection from %1 to remote directory %2 was set up." -/
  | syncConnectionSetUp (localFolder remoteFolder : QString)
  /-- the single blank -/
  | blank
  /-- "Successfully connected to %1!" -/
  | successfullyConnected
  /-- "Connection to %1 could not be established. Please check again." -/
  | connectionNotEstablished
  /-- "Local sync folder %1 successfully created!" -/
  | localSyncFolderCreated (localFolder : QString)
  /-- "Successfully connected to %1: %2 version %3 (%4)", with the URL, the
  version string and the version of the server -/
  | connectedTo (url versionString serverVersion : QString)
  /-- "Trying to connect to %1 at %2..." -/
  | tryingToConnect (url : QString)
  deriving DecidableEq, Repr

/-- Answer of the "Folder rename failed" question box. -/
inductive StandardButton
  | Retry
  | Abort
  deriving DecidableEq, Repr

/-- Which selective-sync list is written. -/
inductive SelectiveSyncListType
  | SelectiveSyncBlackList
  | SelectiveSyncWhiteList
  deriving DecidableEq, Repr

/-- Calls of the wizard on its collaborators, in the order they are made. -/
inductive Effect
  /-- `_ocWizard->appendToConfigurationLog(msg)` -/
  | appendToConfigurationLog (m : Msg)
  /-- `_ocWizard->displayError(msg, retryHTTPonly)` -/
  | displayError (m : Msg) (retryHTTPonly : Bool)
  /-- `_ocWizard->enableFinishOnResultWidget(b)` -/
  | enableFinishOnResultWidget (b : Bool)
  /-- `_ocWizard->successfulStep()` -/
  | successfulStep
  /-- `_ocWizard->show()` -/
  | wizardShow
  /-- `_ocWizard->back()` -/
  | wizardBack
  /-- `_ocWizard->close()` -/
  | wizardClose
  /-- `_ocWizard->account()->setUrl(u)` -/
  | setUrl (u : QUrl)
  /-- a `PropfindJob` on "/" started for the account, whose URL is `url` -/
  | startPropfindJob (url : QUrl)
  /-- an `EntityExistsJob` started on `path` -/
  | startEntityExistsJob (path : QString)
  /-- a `MkColJob` started on `path` -/
  | startMkColJob (path : QString)
  /-- `fi.mkpath(p)` and what it returned -/
  | mkpath (p : QString) (ok : Bool)
  /-- `FileSystem::setFolderMinimumPermissions(p)` -/
  | setFolderMinimumPermissions (p : QString)
  /-- `Utility::setupFavLink(p)` -/
  | setupFavLink (p : QString)
  /-- `_ocWizard->setAccount(AccountManager::createAccount())` -/
  | setAccount (a : Account)
  /-- `AccountManager::instance()->addAccount(a)` -/
  | addAccount (a : Account)
  /-- `AccountManager::instance()->save()` -/
  | save
  /-- `FolderMan::instance()->startFromScratch(localFolder)` and its result -/
  | startFromScratch (localFolder : QString) (ok : Bool)
  /-- the "Folder rename failed" question and the button chosen -/
  | question (but : StandardButton)
  /-- `folderMan->addFolder(account, folderDefinition)` -/
  | addFolder (a : Account) (d : FolderDefinition)
  /-- `f->journalDb()->setSelectiveSyncList(type, list)` -/
  | setSelectiveSyncList (t : SelectiveSyncListType) (l : List QString)
  /-- `disconnect(_ocWizard, SIGNAL(basicSetupFinished(int)), this, ...)` -/
  | disconnectBasicSetupFinished
  /-- `emit ownCloudWizardDone(result)` -/
  | ownCloudWizardDone (result : Int)
  /-- `_ocWizard->account()->setServerVersion(v)` -/
  | setServerVersion (v : QString)
  /-- a `DetermineAuthTypeJob` started for the account, whose URL is `url` -/
  | startDetermineAuthTypeJob (url : QUrl)
  /-- `_ocWizard->account()->setCredentials(creds)` -/
  | setCredentials (creds : QString)
  /-- `_ocWizard->setField(name, value)` -/
  | setField (name value : QString)
  deriving DecidableEq, Repr

/-- Network jobs of the wizard that wait for a reply. -/
inductive JobKind
  | propfind
  | entityExists
  | mkCol
  deriving DecidableEq, Repr

/-- State of an `OwncloudSetupWizard` together with the state of the
collaborators it reads back. -/
structure Wizard where
  /-- `_ocWizard->account()` -/
  account : Account
  /-- member `_remoteFolder` -/
  _remoteFolder : QString
  /-- `_ocWizard->property("localFolder")` -/
  localFolderProperty : QString
  /-- `_ocWizard->currentId()` -/
  currentId : PageId
  /-- pages visited before the current one, most recent first -/
  history : List PageId
  /-- the function-local `static QString expectedPath` of `slotAuthError`;
  `none` until the first execution of its declaration -/
  expectedPath : Option QString
  /-- whether `basicSetupFinished(int)` is connected to
  `slotAssistantFinished(int)` -/
  basicSetupFinishedConnected : Bool
  /-- directories present in the file system -/
  dirs : List QString
  /-- started jobs whose reply has not been delivered, oldest first -/
  pending : List JobKind
  /-- calls made so far -/
  trace : List Effect

/-- What the wizard asks of its surroundings. -/
structure Env where
  /-- `credentials()->stillValid(reply)` of the credentials of the account -/
  stillValid : Reply → Bool
  /-- whether `QDir::mkpath` succeeds on a path -/
  mkpathSucceeds : QString → Bool
  /-- `AccountManager::createAccount()` -/
  createAccount : Account
  /-- `FolderDefinition::prepareLocalPath` -/
  prepareLocalPath : QString → QString
  /-- `FolderDefinition::prepareTargetPath` -/
  prepareTargetPath : QString → QString
  /-- `folderMan->ignoreHiddenFiles()` -/
  ignoreHiddenFiles : Bool

namespace Wizard

/-- Records one call. -/
def emit (w : Wizard) (e : Effect) : Wizard := { w with trace := w.trace ++ [e] }

/-- `_ocWizard->appendToConfigurationLog(m)`. -/
def appendToConfigurationLog (w : Wizard) (m : Msg) : Wizard :=
  w.emit (.appendToConfigurationLog m)

/-- `_ocWizard->displayError(m, retryHTTPonly)`. -/
def displayError (w : Wizard) (m : Msg) (retryHTTPonly : Bool) : Wizard :=
  w.emit (.displayError m retryHTTPonly)

/-- `_ocWizard->successfulStep()`. -/
def successfulStep (w : Wizard) : Wizard := w.emit .successfulStep

/-- `_ocWizard->back()`: returns to the page visited before the current one. -/
def back (w : Wizard) : Wizard :=
  match w.history with
  | [] => w.emit .wizardBack
  | p :: rest => { w with currentId := p, history := rest }.emit .wizardBack

/-- `_ocWizard->account()->setUrl(u)`. -/
def setUrl (w : Wizard) (u : QUrl) : Wizard :=
  { w with account := { w.account with url := u } }.emit (.setUrl u)

/-- Starting a job: the request is issued and the job waits for its reply. -/
def startJob (w : Wizard) (k : JobKind) (e : Effect) : Wizard :=
  { w with pending := w.pending ++ [k] }.emit e

end Wizard

/-! ## Slots of `OwncloudSetupWizard` -/

/-- `OwncloudSetupWizard::testOwnCloudConnect()`: starts a `PropfindJob` on
"/" that does not follow redirects. -/
def testOwnCloudConnect (w : Wizard) : Wizard :=
  w.startJob .propfind (.startPropfindJob w.account.url)

/-- The common end of `slotAuthError` (source lines 334 to 338): shows the
wizard, leaves the Shibboleth page, displays the error. -/
def slotAuthErrorDisplay (w : Wizard) (reply : Reply) (errorMsg : Msg) : Wizard :=
  let w := w.emit .wizardShow
  let w := if w.currentId = PageId.Page_ShibbolethCreds then w.back else w
  w.displayError errorMsg
    (decide (w.currentId = PageId.Page_ServerSetup) && checkDowngradeAdvised reply)

/-- `OwncloudSetupWizard::slotAuthError()`, for the reply of the `PropfindJob`
that sent the signal. -/
def slotAuthError (env : Env) (w : Wizard) (reply : Reply) : Wizard :=
  let redirectUrl := reply.redirectionTarget
  if !redirectUrl.isEmpty then
    let path := redirectUrl.path
    -- `static QString expectedPath = "/" + davPath`: initialised once
    let expectedPath := w.expectedPath.getD ('/' :: w.account.davPath)
    let w := { w with expectedPath := some expectedPath }
    if endsWith path expectedPath then
      let path := chop path expectedPath.length
      let redirectUrl := redirectUrl.setPath path
      let w := w.setUrl redirectUrl
      testOwnCloudConnect w
    else
      slotAuthErrorDisplay w reply (.redirectedMisconfigured redirectUrl.toString)
  else if reply.error = QNetworkReply.ContentNotFoundError then
    w.successfulStep
  else if reply.error ≠ QNetworkReply.NoError then
    if !env.stillValid reply then
      slotAuthErrorDisplay w reply (.accessForbidden w.account.url.toString)
    else
      slotAuthErrorDisplay w reply (.errorMessage reply.errorString reply.body)
  else
    slotAuthErrorDisplay w reply .invalidResponse

/-- `OwncloudSetupWizard::finalizeSetup(success)`. -/
def finalizeSetup (w : Wizard) (success : Bool) : Wizard :=
  let w := w.emit (.enableFinishOnResultWidget success)
  let localFolder := w.localFolderProperty
  if success then
    let w := if !(localFolder.isEmpty || w._remoteFolder.isEmpty) then
        w.appendToConfigurationLog (.syncConnectionSetUp localFolder w._remoteFolder)
      else w
    let w := w.appendToConfigurationLog .blank
    let w := w.appendToConfigurationLog .successfullyConnected
    w.successfulStep
  else
    w.appendToConfigurationLog .connectionNotEstablished

/-- `OwncloudSetupWizard::slotCreateLocalAndRemoteFolders(localFolder,
remoteFolder)`. -/
def slotCreateLocalAndRemoteFolders (env : Env) (w : Wizard)
    (localFolder remoteFolder : QString) : Wizard :=
  let (w, nextStep) :=
    if localFolder ∈ w.dirs then
      (w.appendToConfigurationLog (.localFolderExists localFolder), true)
    else
      if env.mkpathSucceeds localFolder then
        let w := { w with dirs := localFolder :: w.dirs }.emit (.mkpath localFolder true)
        let w := w.emit (.setFolderMinimumPermissions localFolder)
        let w := w.emit (.setupFavLink localFolder)
        (w.appendToConfigurationLog (.creatingLocalFolder localFolder true), true)
      else
        let w := w.emit (.mkpath localFolder false)
        let w := w.displayError (.couldNotCreateLocalFolder localFolder) false
        (w.appendToConfigurationLog (.creatingLocalFolder localFolder false), false)
  if nextStep then
    w.startJob .entityExists (.startEntityExistsJob (w.account.davPath ++ remoteFolder))
  else
    finalizeSetup w false

/-- `OwncloudSetupWizard::createRemoteFolder()`. -/
def createRemoteFolder (w : Wizard) : Wizard :=
  let w := w.appendToConfigurationLog (.creatingFolderOnOwnCloud w._remoteFolder)
  w.startJob .mkCol (.startMkColJob w._remoteFolder)

/-- `OwncloudSetupWizard::slotRemoteFolderExists(reply)`. -/
def slotRemoteFolderExists (w : Wizard) (reply : Reply) : Wizard :=
  let errId := reply.error
  let (w, ok, error) :=
    if errId = QNetworkReply.NoError then
      (w, true, none)
    else if errId = QNetworkReply.ContentNotFoundError then
      if w._remoteFolder.isEmpty then
        (w, false, some Msg.noRemoteFolderSpecified)
      else
        (createRemoteFolder w, true, none)
    else
      (w, false, some (Msg.errorText reply.errorString))
  let w := if !ok then
      match error with
      | some m => w.displayError m false
      | none => w
    else w
  finalizeSetup w ok

/-- `OwncloudSetupWizard::slotCreateRemoteFolderFinished(error)`. -/
def slotCreateRemoteFolderFinished (w : Wizard) (error : NetworkError) : Wizard :=
  let (w, success) :=
    if error = QNetworkReply.NoError then
      (w.appendToConfigurationLog (.remoteFolderCreated w._remoteFolder), true)
    else if error = 202 then
      (w.appendToConfigurationLog (.remoteFolderAlreadyExists w._remoteFolder), true)
    else if error > 202 ∧ error < 300 then
      let w := w.displayError (.httpErrorCode error) false
      (w.appendToConfigurationLog (.httpErrorCode error), true)
    else if error = QNetworkReply.OperationCanceledError then
      let w := w.displayError .credentialsWrong false
      let w := w.appendToConfigurationLog .credentialsProbablyWrong
      ({ w with _remoteFolder := [] }, false)
    else
      let w := w.appendToConfigurationLog (.creationFailed w._remoteFolder error)
      let w := w.displayError (.creationFailed w._remoteFolder error) false
      ({ w with _remoteFolder := [] }, false)
  finalizeSetup w success

/-- `OwncloudSetupWizard::applyAccountChanges()`: detaches the account from
the wizard, adds it to the account manager and saves.  Returns the account
state that was added. -/
def applyAccountChanges (env : Env) (w : Wizard) : Wizard × Account :=
  let newAccount := w.account
  let w := { w with account := env.createAccount }.emit (.setAccount env.createAccount)
  let w := w.emit (.addAccount newAccount)
  let w := w.emit .save
  (w, newAccount)

/-- `OwncloudSetupWizard::ensureStartFromScratch(localFolder)`.  The loop asks
the folder manager to back up the folder until it succeeds or the user aborts;
`retries` is the number of failed attempts answered with Retry, `renamed`
whether the attempt after them succeeds (otherwise it fails and is answered
with Abort). -/
def ensureStartFromScratch (w : Wizard) (localFolder : QString) :
    Nat → Bool → Wizard × Bool
  | 0, true => (w.emit (.startFromScratch localFolder true), true)
  | 0, false =>
      ((w.emit (.startFromScratch localFolder false)).emit (.question .Abort), false)
  | retries + 1, renamed =>
      ensureStartFromScratch
        ((w.emit (.startFromScratch localFolder false)).emit (.question .Retry))
        localFolder retries renamed

/-- Values read from the wizard pages and the folder manager while
`slotAssistantFinished` runs. -/
structure FinishAnswers where
  /-- `_ocWizard->localFolder()` -/
  localFolder : QString
  /-- `_ocWizard->field("OCSyncFromScratch").toBool()` -/
  startFromScratch : Bool
  /-- failed backup attempts answered with Retry -/
  retries : Nat
  /-- whether the backup attempt after them succeeds -/
  renamed : Bool
  /-- whether `folderMan->addFolder` returns a folder -/
  addFolderSucceeds : Bool
  /-- `_ocWizard->selectiveSyncBlacklist()` -/
  selectiveSyncBlacklist : List QString
  /-- `_ocWizard->isConfirmBigFolderChecked()` -/
  isConfirmBigFolderChecked : Bool

namespace QDialog
def Rejected : Int := 0
def Accepted : Int := 1
end QDialog

/-- `OwncloudSetupWizard::slotAssistantFinished(result)`. -/
def slotAssistantFinished (env : Env) (w : Wizard) (result : Int) (a : FinishAnswers) :
    Wizard :=
  let w :=
    if result = QDialog.Rejected then
      w
    else if result = QDialog.Accepted then
      let (w, account) := applyAccountChanges env w
      let localFolder := env.prepareLocalPath a.localFolder
      let (w, go) :=
        if !a.startFromScratch then (w, true)
        else ensureStartFromScratch w localFolder a.retries a.renamed
      if go then
        let folderDefinition : FolderDefinition :=
          { localPath := localFolder
            targetPath := env.prepareTargetPath w._remoteFolder
            ignoreHiddenFiles := env.ignoreHiddenFiles }
        let w := w.emit (.addFolder account folderDefinition)
        let w :=
          if a.addFolderSucceeds then
            let w := w.emit (.setSelectiveSyncList .SelectiveSyncBlackList
              a.selectiveSyncBlacklist)
            if !a.isConfirmBigFolderChecked then
              w.emit (.setSelectiveSyncList .SelectiveSyncWhiteList [['/']])
            else w
          else w
        w.appendToConfigurationLog (.localSyncFolderCreated localFolder)
      else w
    else w
  w.emit (.ownCloudWizardDone result)

/-- `OwncloudSetupWizard::slotSkipFolderConfiguration()`. -/
def slotSkipFolderConfiguration (env : Env) (w : Wizard) : Wizard :=
  let (w, _) := applyAccountChanges env w
  let w := { w with basicSetupFinishedConnected := false }.emit .disconnectBasicSetupFinished
  let w := w.emit .wizardClose
  w.emit (.ownCloudWizardDone QDialog.Accepted)

/-- The `QVariantMap` a `CheckServerJob` hands over with `instanceFound`, by
the two values read from it. -/
structure ServerInfo where
  /-- `CheckServerJob::version(info)` -/
  version : QString
  /-- `CheckServerJob::versionString(info)` -/
  versionString : QString
  deriving DecidableEq, Repr

/-- `OwncloudSetupWizard::slotOwnCloudFoundAuth(url, info)`. -/
def slotOwnCloudFoundAuth (w : Wizard) (url : QUrl) (info : ServerInfo) : Wizard :=
  let serverVersion := info.version
  let w := w.appendToConfigurationLog
    (.connectedTo url.toString info.versionString serverVersion)
  let w := { w with account := { w.account with serverVersion := serverVersion } }.emit
    (.setServerVersion serverVersion)
  let p := url.path
  let w :=
    if endsWith p "/status.php".toList then
      let redirectedUrl := url.setPath (left url.path (url.path.length - 11))
      w.setUrl redirectedUrl
    else w
  w.emit (.startDetermineAuthTypeJob w.account.url)

/-- What a finished job signals. -/
inductive JobOutcome
  /-- `PropfindJob::result`, connected to `_ocWizard->successfulStep()` -/
  | propfindResult
  /-- `PropfindJob::finishedWithError`, connected to `slotAuthError()` -/
  | propfindFinishedWithError (reply : Reply)
  /-- `EntityExistsJob::exists(reply)`, connected to `slotRemoteFolderExists` -/
  | entityExists (reply : Reply)
  /-- `MkColJob::finished(error)`, connected to
  `slotCreateRemoteFolderFinished` -/
  | mkColFinished (error : NetworkError)
  deriving DecidableEq, Repr

/-- Delivery of the signal of the oldest waiting job to the slot connected to
it.  A signal for which no job of that kind is waiting is not delivered. -/
def dispatch (env : Env) (w : Wizard) (o : JobOutcome) : Wizard :=
  match w.pending, o with
  | .propfind :: rest, .propfindResult => { w with pending := rest }.successfulStep
  | .propfind :: rest, .propfindFinishedWithError reply =>
      slotAuthError env { w with pending := rest } reply
  | .entityExists :: rest, .entityExists reply =>
      slotRemoteFolderExists { w with pending := rest } reply
  | .mkCol :: rest, .mkColFinished error =>
      slotCreateRemoteFolderFinished { w with pending := rest } error
  | _, _ => w

/-- Delivery of a sequence of signals, in order. -/
def run (env : Env) (w : Wizard) (os : List JobOutcome) : Wizard :=
  os.foldl (dispatch env) w

/-- The authenticated verification: `testOwnCloudConnect()` followed by the
replies of the server to the PROPFIND requests, each a failed one handled by
`slotAuthError`. -/
def verify (env : Env) (w : Wizard) (replies : List Reply) : Wizard :=
  run env (testOwnCloudConnect w) (replies.map .propfindFinishedWithError)

/-! ## Observations on a trace -/

/-- Number of PROPFIND requests issued. -/
def propfindRequests (t : List Effect) : Nat :=
  (t.filter fun e => match e with | .startPropfindJob _ => true | _ => false).length

/-- The base URLs set on the account, in order. -/
def urlCorrections (t : List Effect) : List QUrl :=
  t.filterMap fun e => match e with | .setUrl u => some u | _ => none

/-- The errors displayed, in order. -/
def displayedErrors (t : List Effect) : List Msg :=
  t.filterMap fun e => match e with | .displayError m _ => some m | _ => none

/-- Number of `successfulStep()` calls. -/
def successfulSteps (t : List Effect) : Nat := t.count .successfulStep

/-- The arguments of the `finalizeSetup` calls, in order: `finalizeSetup` is
the only caller of `enableFinishOnResultWidget` and calls it once. -/
def finalizeCalls (t : List Effect) : List Bool :=
  t.filterMap fun e => match e with | .enableFinishOnResultWidget b => some b | _ => none

/-- The accounts handed to `AccountManager::addAccount`, in order. -/
def addedAccounts (t : List Effect) : List Account :=
  t.filterMap fun e => match e with | .addAccount a => some a | _ => none

/-- Number of `AccountManager::save()` calls. -/
def saves (t : List Effect) : Nat := t.count .save

/-- The folders handed to `FolderMan::addFolder`, in order. -/
def addedFolders (t : List Effect) : List (Account × FolderDefinition) :=
  t.filterMap fun e => match e with | .addFolder a d => some (a, d) | _ => none

/-- The remote requests started (PROPFIND, existence probe, MKCOL). -/
def remoteRequests (t : List Effect) : List Effect :=
  t.filter fun e => match e with
    | .startPropfindJob _ => true
    | .startEntityExistsJob _ => true
    | .startMkColJob _ => true
    | _ => false

/-- The type `WizardCommon::AuthType`. -/
inductive AuthType
  | HttpCreds
  | Shibboleth
  deriving DecidableEq, Repr

/-- A `DetermineAuthTypeJob` with what it has sent and emitted. -/
structure DetermineAuthTypeJob where
  /-- `account()->davPath()` -/
  davPath : QString
  /-- `maxRedirects()` of `AbstractNetworkJob`, a bound on redirect hops -/
  maxRedirects : Nat
  /-- whether the build defines `NO_SHIBBOLETH` -/
  noShibboleth : Bool
  /-- member `_redirects` -/
  _redirects : Nat
  /-- targets of the `sendRequest("GET", url)` calls, in order -/
  requests : List QUrl
  /-- number of `resetTimeout()` calls -/
  timeoutResets : Nat
  /-- arguments of the emitted `authType` signals, in order -/
  authType : List AuthType
  deriving DecidableEq, Repr

namespace DetermineAuthTypeJob

/-- The constructor followed by `start()`: `_redirects` is zero and a GET is
sent to `account()->davUrl()`. -/
def start (davPath : QString) (maxRedirects : Nat) (noShibboleth : Bool) (davUrl : QUrl) :
    DetermineAuthTypeJob :=
  { davPath := davPath, maxRedirects := maxRedirects, noShibboleth := noShibboleth,
    _redirects := 0, requests := [davUrl], timeoutResets := 0, authType := [] }

/-- The test `contains(shibbolethyWords)` for the case-insensitive regular
expression `SAML|wayf`. -/
def containsShibbolethyWords (s : QString) : Bool :=
  contains (toLower s) "saml".toList || contains (toLower s) "wayf".toList

/-- `DetermineAuthTypeJob::finished()` for the reply just received.  The
boolean is the return value: `true` when the job is done and is discarded,
`false` when it waits for the reply to the request it sent again. -/
def finished (j : DetermineAuthTypeJob) (reply : Reply) : DetermineAuthTypeJob × Bool :=
  let redirection := reply.redirectionTarget
  let redirection := if j._redirects ≥ j.maxRedirects then redirection.clear else redirection
  if reply.error = QNetworkReply.AuthenticationRequiredError ∨ redirection.isEmpty then
    ({ j with authType := j.authType ++ [.HttpCreds] }, true)
  else if endsWith redirection.toString j.davPath then
    ({ j with _redirects := j._redirects + 1
              timeoutResets := j.timeoutResets + 1
              requests := j.requests ++ [redirection] }, false)
  else
    if !j.noShibboleth && containsShibbolethyWords redirection.toString then
      ({ j with authType := j.authType ++ [.Shibboleth] }, true)
    else
      ({ j with authType := j.authType ++ [.HttpCreds] }, true)

/-- A job and whether it has been discarded. -/
structure Running where
  job : DetermineAuthTypeJob
  discarded : Bool
  deriving DecidableEq, Repr

/-- Delivery of a reply to the job: `finished()` is called on a job that is
still there, and the job is discarded when `finished()` returns true. -/
def slotFinished (st : Running) (reply : Reply) : Running :=
  if st.discarded then st
  else
    let (j, d) := finished st.job reply
    { job := j, discarded := d }

/-- The job from `start()` through a sequence of replies. -/
def runJob (davPath : QString) (maxRedirects : Nat) (noShibboleth : Bool) (davUrl : QUrl)
    (replies : List Reply) : Running :=
  replies.foldl slotFinished
    { job := start davPath maxRedirects noShibboleth davUrl, discarded := false }

/-- The first `n` replies of a stream of replies. -/
def firstReplies (replies : Nat → Reply) (n : Nat) : List Reply :=
  (List.range n).map replies

/-- A reply that redirects within the service: it is no authentication
challenge and its redirect target is not empty and ends with the WebDAV
path. -/
def sameServiceRedirect (davPath : QString) (reply : Reply) : Bool :=
  decide (reply.error ≠ QNetworkReply.AuthenticationRequiredError)
    && !reply.redirectionTarget.isEmpty
    && endsWith reply.redirectionTarget.toString davPath

end DetermineAuthTypeJob

/-! ## The downgrade rule as the specification words it -/

/-- The rule `advise(scheme, errorKind, hstsHeaderPresent)` in the words of
the specification: false if the transport was not secure, false for the
benign error kinds (no error, not found, authentication required, host not
found), false if the response carried a strict-transport-security header,
true otherwise. -/
def advise (scheme : QString) (errorKind : NetworkError) (hstsHeaderPresent : Bool) : Bool :=
  decide (scheme = "https".toList)
    && !(decide (errorKind ∈ [QNetworkReply.NoError, QNetworkReply.ContentNotFoundError,
          QNetworkReply.AuthenticationRequiredError, QNetworkReply.HostNotFoundError]))
    && !hstsHeaderPresent

/-! ## Sample values -/

namespace Sample

/-- The URL `https://cloud.example.org`. -/
def baseUrl : QUrl := ⟨"https".toList, "cloud.example.org".toList, -1, [], [], []⟩

/-- An `https` URL on the sample host with the given path. -/
def urlAt (host path : String) : QUrl := ⟨"https".toList, host.toList, -1, path.toList, [], []⟩

/-- The WebDAV path of the sample account. -/
def davPath : QString := "remote.php/webdav/".toList

/-- A draft account on the sample server. -/
def account : Account :=
  { url := baseUrl, davPath := davPath, serverVersion := "10.0".toList,
    credentials := "http".toList }

/-- A wizard on the credentials page, with nothing started yet. -/
def wizard : Wizard :=
  { account := account, _remoteFolder := "Documents".toList,
    localFolderProperty := "/home/u/ownCloud".toList,
    currentId := .Page_HttpCreds, history := [.Page_ServerSetup],
    expectedPath := none, basicSetupFinishedConnected := true,
    dirs := [], pending := [], trace := [] }

/-- Surroundings in which credentials are reported valid and directories can
be created. -/
def env : Env :=
  { stillValid := fun _ => true, mkpathSucceeds := fun _ => true,
    createAccount := { url := QUrl.empty, davPath := davPath, serverVersion := [],
                       credentials := [] },
    prepareLocalPath := fun p => p, prepareTargetPath := fun p => p,
    ignoreHiddenFiles := true }

/-- Surroundings in which no directory can be created. -/
def envReadOnly : Env := { env with mkpathSucceeds := fun _ => false }

/-- A reply with the given error and redirect target and nothing else. -/
def reply (error : NetworkError) (target : QUrl) : Reply :=
  { url := urlAt "cloud.example.org" "/remote.php/webdav/", error := error,
    errorString := "error".toList, redirectionTarget := target, rawHeaders := [],
    body := [] }

/-- A redirect to the WebDAV root below `/a` on another host. -/
def redirectA : Reply := reply 0 (urlAt "a.example.org" "/a/remote.php/webdav/")

/-- A redirect to the WebDAV root below `/b` on a third host. -/
def redirectB : Reply := reply 0 (urlAt "b.example.org" "/b/remote.php/webdav/")

/-- A redirect to a login page. -/
def redirectLogin : Reply := reply 0 (urlAt "cloud.example.org" "/login")

/-- A redirect to an identity provider. -/
def redirectSaml : Reply := reply 0 (urlAt "idp.example.org" "/SAML2/Redirect")

/-- A redirect to the WebDAV root on a host whose name contains "saml". -/
def redirectSamlHost : Reply := reply 0 (urlAt "saml.example.org" "/remote.php/webdav/")

/-- The WebDAV URL of the sample account. -/
def davUrl : QUrl := urlAt "cloud.example.org" "/remote.php/webdav/"

/-- A redirect to the login page of an identity provider that carries the
address to return to in its query. -/
def redirectIdpReturn : Reply :=
  reply 0 ⟨"https".toList, "idp.example.org".toList, -1, "/SAML2/login".toList,
    "return=https://cloud.example.org/remote.php/webdav/".toList, []⟩

/-- A redirect to the WebDAV root of another host, with a query. -/
def redirectWithQuery : Reply :=
  reply 0 ⟨"https".toList, "a.example.org".toList, -1, "/a/remote.php/webdav/".toList,
    "lang=en".toList, []⟩

/-- A failed reply without redirect target: authentication required. -/
def unauthorized : Reply := reply QNetworkReply.AuthenticationRequiredError QUrl.empty

/-- A reply without redirect target and without error. -/
def unparsable : Reply := reply QNetworkReply.NoError QUrl.empty

/-- Surroundings in which the credentials report every reply as a credential
failure. -/
def envRejected : Env := { env with stillValid := fun _ => false }

/-- The answers of the pages on an accepted finish on which the backup of the
local folder is asked for, fails and is aborted. -/
def answersAborted : FinishAnswers :=
  { localFolder := "/home/u/ownCloud".toList, startFromScratch := true, retries := 0,
    renamed := false, addFolderSucceeds := true, selectiveSyncBlacklist := [],
    isConfirmBigFolderChecked := true }

/-- The URL at which the sample server answered the discovery request. -/
def statusUrl : QUrl :=
  ⟨"https".toList, "cloud.example.org".toList, 8443, "/oc/status.php".toList,
    "x=1".toList, []⟩

/-- The answer of the sample server to the discovery request. -/
def serverInfo : ServerInfo := { version := "10.0".toList, versionString := "10.0.3".toList }

/-- A not-found reply without redirect target. -/
def notFound : Reply := reply QNetworkReply.ContentNotFoundError QUrl.empty

/-- The answers of the pages on an accepted finish without backup. -/
def answers : FinishAnswers :=
  { localFolder := "/home/u/ownCloud".toList, startFromScratch := false, retries := 0,
    renamed := true, addFolderSucceeds := true, selectiveSyncBlacklist := [],
    isConfirmBigFolderChecked := true }

end Sample


/-- The suffix `slotAuthError` strips from a redirect path: the value of its
static `expectedPath`, which is "/" followed by the WebDAV path of the account
when the declaration is executed for the first time. -/
def expectedPathOf (w : Wizard) : QString := w.expectedPath.getD ('/' :: w.account.davPath)

/-- A reply that carries a redirect target whose path ends with the suffix. -/
def correctingRedirect (suffix : QString) (reply : Reply) : Bool :=
  !reply.redirectionTarget.isEmpty && endsWith reply.redirectionTarget.path suffix

/-- The base URL `slotAuthError` derives from a redirect target: the target
with the suffix chopped off its path. -/
def correctedUrl (suffix : QString) (reply : Reply) : QUrl :=
  reply.redirectionTarget.setPath (chop reply.redirectionTarget.path suffix.length)

/-- The calls made for one correcting redirect. -/
def correctionEffects (suffix : QString) (reply : Reply) : List Effect :=
  [.setUrl (correctedUrl suffix reply), .startPropfindJob (correctedUrl suffix reply)]

/-- The calls on the account manager and the folder manager in a trace:
accounts added, number of saves, folders added. -/
def persistence (t : List Effect) : List Account × Nat × List (Account × FolderDefinition) :=
  (addedAccounts t, saves t, addedFolders t)

/-- A call that is none of `addAccount`, `save`, `addFolder`. -/
def Effect.persistsNothing : Effect → Bool
  | .addAccount _ => false
  | .save => false
  | .addFolder _ _ => false
  | _ => true

namespace DetermineAuthTypeJob

/-- What holds of a job at every moment: the hop counter is within the bound,
one request was sent per hop besides the first, and a signal has been emitted
exactly when the job is done. -/
def Inv (st : Running) : Prop :=
  st.job._redirects ≤ st.job.maxRedirects
  ∧ st.job.requests.length = st.job._redirects + 1
  ∧ (st.discarded = false → st.job.authType = [])
  ∧ (st.discarded = true → st.job.authType.length = 1)

end DetermineAuthTypeJob

/-! ## Theorems -/

section TraceLemmas

@[simp] theorem Wizard.trace_emit (w : Wizard) (e : Effect) :
    (w.emit e).trace = w.trace ++ [e] := rfl

@[simp] theorem Wizard.pending_emit (w : Wizard) (e : Effect) :
    (w.emit e).pending = w.pending := rfl

@[simp] theorem Wizard.account_emit (w : Wizard) (e : Effect) :
    (w.emit e).account = w.account := rfl

@[simp] theorem Wizard.expectedPath_emit (w : Wizard) (e : Effect) :
    (w.emit e).expectedPath = w.expectedPath := rfl

@[simp] theorem Wizard.remoteFolder_emit (w : Wizard) (e : Effect) :
    (w.emit e)._remoteFolder = w._remoteFolder := rfl

@[simp] theorem Wizard.dirs_emit (w : Wizard) (e : Effect) :
    (w.emit e).dirs = w.dirs := rfl

@[simp] theorem Wizard.connected_emit (w : Wizard) (e : Effect) :
    (w.emit e).basicSetupFinishedConnected = w.basicSetupFinishedConnected := rfl

@[simp] theorem Wizard.localFolderProperty_emit (w : Wizard) (e : Effect) :
    (w.emit e).localFolderProperty = w.localFolderProperty := rfl

end TraceLemmas

/-- One step of the verification on a correcting redirect: the base URL is
set to the corrected URL and the PROPFIND is issued again. -/
theorem slotAuthError_correcting (env : Env) (w : Wizard) (reply : Reply)
    (h : correctingRedirect (expectedPathOf w) reply = true) :
    slotAuthError env w reply =
      { w with
        expectedPath := some (expectedPathOf w)
        account := { w.account with url := correctedUrl (expectedPathOf w) reply }
        pending := w.pending ++ [.propfind]
        trace := w.trace ++ [.setUrl (correctedUrl (expectedPathOf w) reply),
          .startPropfindJob (correctedUrl (expectedPathOf w) reply)] } := by
  simp only [correctingRedirect, Bool.and_eq_true] at h
  obtain ⟨h1, h2⟩ := h
  simp [slotAuthError, expectedPathOf] at h1 h2 ⊢
  simp [h1, h2, testOwnCloudConnect, Wizard.setUrl, Wizard.startJob, Wizard.emit,
    correctedUrl]

/-- A waiting PROPFIND answered by correcting redirects only: every one of
them is followed, and the PROPFIND issued last is still waiting. -/
theorem run_correcting (env : Env) (suffix : QString) :
    ∀ (rs : List Reply) (w : Wizard), w.pending = [.propfind] → expectedPathOf w = suffix →
      (∀ r ∈ rs, correctingRedirect suffix r = true) →
      (run env w (rs.map .propfindFinishedWithError)).pending = [.propfind]
      ∧ expectedPathOf (run env w (rs.map .propfindFinishedWithError)) = suffix
      ∧ (run env w (rs.map .propfindFinishedWithError)).trace
          = w.trace ++ rs.flatMap (correctionEffects suffix) := by
  intro rs
  induction rs with
  | nil => intro w hp he _; simp [run, hp, he]
  | cons r rs ih =>
    intro w hp he hall
    have hr : correctingRedirect (expectedPathOf { w with pending := [] }) r = true := by
      have := hall r (List.mem_cons_self _ _)
      simpa [expectedPathOf, he] using (he ▸ this : correctingRedirect (expectedPathOf w) r = true)
    have hstep : dispatch env w (.propfindFinishedWithError r)
        = slotAuthError env { w with pending := [] } r := by
      simp [dispatch, hp]
    have hrun : run env w ((r :: rs).map .propfindFinishedWithError)
        = run env (slotAuthError env { w with pending := [] } r)
            (rs.map .propfindFinishedWithError) := by
      simp [run, hstep]
    rw [hrun, slotAuthError_correcting env _ r hr]
    have he' : expectedPathOf { w with pending := [] } = suffix := he
    rw [he']
    have := ih
      { w with
        expectedPath := some suffix
        account := { w.account with url := correctedUrl suffix r }
        pending := [.propfind]
        trace := w.trace ++ [.setUrl (correctedUrl suffix r),
          .startPropfindJob (correctedUrl suffix r)] }
      rfl rfl (fun x hx => hall x (List.mem_cons_of_mem _ hx))
    obtain ⟨h1, h3, h4⟩ := this
    refine ⟨?_, ?_, ?_⟩
    · simpa using h1
    · simpa using h3
    · simpa [correctionEffects, List.flatMap_cons] using h4

/-- What `slotAuthErrorDisplay` leaves behind: one more displayed error, no
request, no successful step, no correction. -/
theorem slotAuthErrorDisplay_spec (w : Wizard) (reply : Reply) (m : Msg) :
    (slotAuthErrorDisplay w reply m).pending = w.pending
    ∧ (slotAuthErrorDisplay w reply m).account = w.account
    ∧ displayedErrors (slotAuthErrorDisplay w reply m).trace = displayedErrors w.trace ++ [m]
    ∧ propfindRequests (slotAuthErrorDisplay w reply m).trace = propfindRequests w.trace
    ∧ successfulSteps (slotAuthErrorDisplay w reply m).trace = successfulSteps w.trace
    ∧ urlCorrections (slotAuthErrorDisplay w reply m).trace = urlCorrections w.trace := by
  unfold slotAuthErrorDisplay
  by_cases hc : w.currentId = PageId.Page_ShibbolethCreds
  · cases hh : w.history <;>
      simp [hc, hh, Wizard.back, Wizard.displayError, Wizard.emit, displayedErrors,
        propfindRequests, successfulSteps, urlCorrections, List.filterMap_append,
        List.filter_append, List.count_append]
  · simp [hc, Wizard.displayError, Wizard.emit, displayedErrors,
      propfindRequests, successfulSteps, urlCorrections, List.filterMap_append,
      List.filter_append, List.count_append]

/-- Observations on the calls made for a run of correcting redirects. -/
theorem correctionEffects_observed (suffix : QString) (rs : List Reply) :
    propfindRequests (rs.flatMap (correctionEffects suffix)) = rs.length
    ∧ urlCorrections (rs.flatMap (correctionEffects suffix)) = rs.map (correctedUrl suffix)
    ∧ displayedErrors (rs.flatMap (correctionEffects suffix)) = []
    ∧ successfulSteps (rs.flatMap (correctionEffects suffix)) = 0 := by
  induction rs with
  | nil => simp [propfindRequests, urlCorrections, displayedErrors, successfulSteps]
  | cons r rs ih =>
    obtain ⟨h1, h2, h3, h4⟩ := ih
    simp only [propfindRequests, urlCorrections, displayedErrors, successfulSteps] at h1 h2 h3 h4 ⊢
    simp [List.flatMap_cons, correctionEffects, List.filter_append, List.filterMap_append,
      List.count_append, h1, h2, h3, h4, List.filter_cons, List.filterMap_cons, List.count_cons]

/-- After `testOwnCloudConnect()` and a run of correcting redirects the
wizard waits for the reply to the PROPFIND it issued last. -/
theorem verify_correcting (env : Env) (w : Wizard) (rs : List Reply) (hp : w.pending = [])
    (hall : ∀ x ∈ rs, correctingRedirect (expectedPathOf w) x = true) :
    (verify env w rs).pending = [.propfind]
    ∧ expectedPathOf (verify env w rs) = expectedPathOf w
    ∧ (verify env w rs).trace
        = w.trace ++ .startPropfindJob w.account.url
            :: rs.flatMap (correctionEffects (expectedPathOf w)) := by
  have h := run_correcting env (expectedPathOf w) rs (testOwnCloudConnect w)
    (by simp [testOwnCloudConnect, Wizard.startJob, hp]) rfl hall
  obtain ⟨h1, h2, h3⟩ := h
  refine ⟨h1, h2, ?_⟩
  rw [verify, h3]
  simp [testOwnCloudConnect, Wizard.startJob]

/-- C1, as the code has it: the authenticated verification corrects the base
URL on every redirect whose path ends with the expected suffix, not only on
the first.  A verification answered by `rs`, any number of such redirects in a
row, makes one correction per redirect and issues `rs.length + 1` PROPFIND
requests, displays no error and still waits for a reply; the redirect that
ends the verification with the "server is misconfigured" error is the first
one whose path does not end with the suffix, and no request follows it. -/
theorem verify_corrects_on_every_matching_redirect (env : Env) (w : Wizard)
    (rs : List Reply) (r : Reply) (hp : w.pending = [])
    (hall : ∀ x ∈ rs, correctingRedirect (expectedPathOf w) x = true) :
    (propfindRequests (verify env w rs).trace = propfindRequests w.trace + (rs.length + 1)
      ∧ urlCorrections (verify env w rs).trace
          = urlCorrections w.trace ++ rs.map (correctedUrl (expectedPathOf w))
      ∧ displayedErrors (verify env w rs).trace = displayedErrors w.trace
      ∧ (verify env w rs).pending = [.propfind])
    ∧ (r.redirectionTarget.isEmpty = false →
        endsWith r.redirectionTarget.path (expectedPathOf w) = false →
        displayedErrors (verify env w (rs ++ [r])).trace
            = displayedErrors w.trace ++ [.redirectedMisconfigured r.redirectionTarget.toString]
        ∧ propfindRequests (verify env w (rs ++ [r])).trace
            = propfindRequests w.trace + (rs.length + 1)
        ∧ (verify env w (rs ++ [r])).pending = []) := by
  obtain ⟨h1, h2, h3⟩ := verify_correcting env w rs hp hall
  obtain ⟨o1, o2, o3, _⟩ := correctionEffects_observed (expectedPathOf w) rs
  have t1 : propfindRequests (verify env w rs).trace
      = propfindRequests w.trace + (rs.length + 1) := by
    rw [h3]
    simp only [propfindRequests] at o1 ⊢
    simp [List.filter_append, List.filter_cons, o1]
  have t3 : displayedErrors (verify env w rs).trace = displayedErrors w.trace := by
    rw [h3]
    simp only [displayedErrors] at o3 ⊢
    simp [List.filterMap_append, List.filterMap_cons, o3]
  refine ⟨⟨t1, ?_, t3, h1⟩, ?_⟩
  · rw [h3]
    simp only [urlCorrections] at o2 ⊢
    simp [List.filterMap_append, List.filterMap_cons, o2]
  · intro he hn
    have hv : verify env w (rs ++ [r])
        = dispatch env (verify env w rs) (.propfindFinishedWithError r) := by
      simp [verify, run, List.foldl_append]
    have hd : dispatch env (verify env w rs) (.propfindFinishedWithError r)
        = slotAuthErrorDisplay
            { verify env w rs with pending := [], expectedPath := some (expectedPathOf w) }
            r (.redirectedMisconfigured r.redirectionTarget.toString) := by
      have hn2 : endsWith r.redirectionTarget.path
          (expectedPathOf { verify env w rs with pending := [] }) = false := by
        have : expectedPathOf { verify env w rs with pending := [] }
            = expectedPathOf (verify env w rs) := rfl
        rw [this, h2]; exact hn
      have hn3 := hn
      simp only [expectedPathOf] at hn2 h2 hn3
      simp [dispatch, h1, slotAuthError, he, hn2, h2, hn3, expectedPathOf]
    rw [hv, hd]
    obtain ⟨d1, _, d3, d4, _, _⟩ := slotAuthErrorDisplay_spec
      { verify env w rs with pending := [], expectedPath := some (expectedPathOf w) }
      r (.redirectedMisconfigured r.redirectionTarget.toString)
    refine ⟨?_, ?_, ?_⟩
    · rw [d3]; exact congrArg (· ++ _) t3
    · rw [d4]; exact t1
    · rw [d1]

/-- The theorem `verify_corrects_on_every_matching_redirect` at two correcting
redirects followed by a redirect to a login page. -/
theorem verify_corrects_on_every_matching_redirect_witness :
    Sample.wizard.pending = []
    ∧ (∀ x ∈ [Sample.redirectA, Sample.redirectB],
        correctingRedirect (expectedPathOf Sample.wizard) x = true)
    ∧ propfindRequests (verify Sample.env Sample.wizard
        [Sample.redirectA, Sample.redirectB]).trace = 3
    ∧ displayedErrors (verify Sample.env Sample.wizard
        ([Sample.redirectA, Sample.redirectB] ++ [Sample.redirectLogin])).trace
        = [.redirectedMisconfigured Sample.redirectLogin.redirectionTarget.toString] :=
  have hall : ∀ x ∈ [Sample.redirectA, Sample.redirectB],
      correctingRedirect (expectedPathOf Sample.wizard) x = true := by decide
  have h := verify_corrects_on_every_matching_redirect Sample.env Sample.wizard
    [Sample.redirectA, Sample.redirectB] Sample.redirectLogin rfl hall
  ⟨rfl, hall, h.1.1, (h.2 (by decide) (by decide)).1⟩

/-- C1 as stated fails: answered by two redirects that both end with the
expected suffix and then by a not-found reply, the verification follows the
second redirect as well: it corrects the base URL twice, issues three PROPFIND
requests, displays no error and reports success. -/
theorem second_matching_redirect_is_followed :
    correctingRedirect (expectedPathOf Sample.wizard) Sample.redirectA = true
    ∧ correctingRedirect (expectedPathOf Sample.wizard) Sample.redirectB = true
    ∧ propfindRequests (verify Sample.env Sample.wizard
        [Sample.redirectA, Sample.redirectB, Sample.notFound]).trace = 3
    ∧ urlCorrections (verify Sample.env Sample.wizard
        [Sample.redirectA, Sample.redirectB, Sample.notFound]).trace
        = [Sample.urlAt "a.example.org" "/a", Sample.urlAt "b.example.org" "/b"]
    ∧ displayedErrors (verify Sample.env Sample.wizard
        [Sample.redirectA, Sample.redirectB, Sample.notFound]).trace = []
    ∧ successfulSteps (verify Sample.env Sample.wizard
        [Sample.redirectA, Sample.redirectB, Sample.notFound]).trace = 1 := by
  decide

/-! ### `DetermineAuthTypeJob`: the hop bound -/

namespace DetermineAuthTypeJob

theorem finished_maxRedirects (j : DetermineAuthTypeJob) (reply : Reply) :
    (finished j reply).1.maxRedirects = j.maxRedirects
    ∧ (finished j reply).1.davPath = j.davPath
    ∧ (finished j reply).1.noShibboleth = j.noShibboleth := by
  unfold finished
  simp only []
  split_ifs <;> simp

theorem slotFinished_params (st : Running) (reply : Reply) :
    (slotFinished st reply).job.maxRedirects = st.job.maxRedirects
    ∧ (slotFinished st reply).job.davPath = st.job.davPath
    ∧ (slotFinished st reply).job.noShibboleth = st.job.noShibboleth := by
  unfold slotFinished
  by_cases hd : st.discarded = true
  · simp [hd]
  · simpa [hd] using finished_maxRedirects st.job reply

/-- A reply either ends the job with one signal or is a hop below the bound. -/
theorem finished_cases (j : DetermineAuthTypeJob) (reply : Reply) :
    ((finished j reply).2 = true
      ∧ (∃ a, (finished j reply).1.authType = j.authType ++ [a])
      ∧ (finished j reply).1._redirects = j._redirects
      ∧ (finished j reply).1.requests = j.requests)
    ∨ ((finished j reply).2 = false
      ∧ j._redirects < j.maxRedirects
      ∧ (finished j reply).1.authType = j.authType
      ∧ (finished j reply).1._redirects = j._redirects + 1
      ∧ (finished j reply).1.requests = j.requests ++ [reply.redirectionTarget]) := by
  unfold finished
  by_cases hb : j._redirects ≥ j.maxRedirects
  · left
    simp [hb, QUrl.clear, QUrl.isEmpty]
  · simp only [hb, if_false]
    split_ifs
    · left; simp
    · right; simp; omega
    · left; simp
    · left; simp

theorem slotFinished_of_waiting (st : Running) (reply : Reply) (h : st.discarded = false) :
    slotFinished st reply
      = { job := (finished st.job reply).1, discarded := (finished st.job reply).2 } := by
  simp [slotFinished, h]

theorem slotFinished_of_discarded (st : Running) (reply : Reply) (h : st.discarded = true) :
    slotFinished st reply = st := by
  simp [slotFinished, h]

theorem slotFinished_inv (st : Running) (reply : Reply) (h : Inv st) :
    Inv (slotFinished st reply) := by
  by_cases hd : st.discarded = true
  · rw [slotFinished_of_discarded st reply hd]; exact h
  · obtain ⟨h1, h2, h3, _⟩ := h
    have hf : st.discarded = false := by simpa using hd
    have hnil := h3 hf
    have hm := (finished_maxRedirects st.job reply).1
    rw [slotFinished_of_waiting st reply hf]
    rcases finished_cases st.job reply with ⟨c1, ⟨a, c2⟩, c3, c4⟩ | ⟨c1, c2, c3, c4, c5⟩
    · refine ⟨?_, ?_, ?_, ?_⟩
      · show (finished st.job reply).1._redirects ≤ (finished st.job reply).1.maxRedirects
        rw [c3, hm]; exact h1
      · show (finished st.job reply).1.requests.length = (finished st.job reply).1._redirects + 1
        rw [c4, c3]; exact h2
      · intro hh
        have hh2 : (finished st.job reply).2 = false := hh
        rw [c1] at hh2; cases hh2
      · intro _
        show (finished st.job reply).1.authType.length = 1
        rw [c2, hnil]; rfl
    · refine ⟨?_, ?_, ?_, ?_⟩
      · show (finished st.job reply).1._redirects ≤ (finished st.job reply).1.maxRedirects
        rw [c4, hm]; omega
      · show (finished st.job reply).1.requests.length = (finished st.job reply).1._redirects + 1
        rw [c5, c4]; simp [h2]
      · intro _
        show (finished st.job reply).1.authType = []
        rw [c3]; exact hnil
      · intro hh
        have hh2 : (finished st.job reply).2 = true := hh
        rw [c1] at hh2; cases hh2

/-- A job that is still waiting after a reply has followed one more hop. -/
theorem slotFinished_waiting (st : Running) (reply : Reply)
    (h : (slotFinished st reply).discarded = false) :
    st.discarded = false ∧ (slotFinished st reply).job._redirects = st.job._redirects + 1 := by
  by_cases hd : st.discarded = true
  · rw [slotFinished_of_discarded st reply hd] at h
    rw [hd] at h; cases h
  · have hf : st.discarded = false := by simpa using hd
    rw [slotFinished_of_waiting st reply hf] at h ⊢
    rcases finished_cases st.job reply with ⟨c1, _⟩ | ⟨_, _, _, c4, _⟩
    · have h2 : (finished st.job reply).2 = false := h
      rw [c1] at h2; cases h2
    · exact ⟨hf, c4⟩

/-- A discarded job takes no further reply. -/
theorem foldl_discarded (l : List Reply) : ∀ x : Running, x.discarded = true →
    l.foldl slotFinished x = x := by
  induction l with
  | nil => intro x _; rfl
  | cons y l ihl =>
    intro x hx
    simp [List.foldl_cons, slotFinished_of_discarded x y hx, ihl x hx]

theorem foldl_inv (rs : List Reply) : ∀ st : Running, Inv st →
    Inv (rs.foldl slotFinished st)
      ∧ (rs.foldl slotFinished st).job.maxRedirects = st.job.maxRedirects
      ∧ ((rs.foldl slotFinished st).discarded = false →
          (rs.foldl slotFinished st).job._redirects = st.job._redirects + rs.length) := by
  induction rs with
  | nil => intro st h; exact ⟨h, rfl, fun _ => rfl⟩
  | cons r rs ih =>
    intro st h
    obtain ⟨i1, i2, i3⟩ := ih (slotFinished st r) (slotFinished_inv st r h)
    refine ⟨i1, i2.trans (slotFinished_params st r).1, ?_⟩
    intro hw
    have h3 := i3 hw
    have hmid : (slotFinished st r).discarded = false := by
      by_contra hc
      have hc2 : (slotFinished st r).discarded = true := by simpa using hc
      have := foldl_discarded rs _ hc2
      simp only [List.foldl_cons] at hw
      rw [this] at hw
      rw [hc2] at hw; cases hw
    have := (slotFinished_waiting st r hmid).2
    simp only [List.foldl_cons, List.length_cons] at h3 ⊢
    omega

theorem start_inv (davPath : QString) (maxRedirects : Nat) (noShibboleth : Bool)
    (davUrl : QUrl) :
    Inv { job := start davPath maxRedirects noShibboleth davUrl, discarded := false } := by
  simp [Inv, start]

theorem runJob_inv (davPath : QString) (maxRedirects : Nat) (noShibboleth : Bool)
    (davUrl : QUrl) (rs : List Reply) :
    Inv (runJob davPath maxRedirects noShibboleth davUrl rs)
    ∧ (runJob davPath maxRedirects noShibboleth davUrl rs).job.maxRedirects = maxRedirects
    ∧ ((runJob davPath maxRedirects noShibboleth davUrl rs).discarded = false →
        (runJob davPath maxRedirects noShibboleth davUrl rs).job._redirects = rs.length) := by
  obtain ⟨h1, h2, h3⟩ := foldl_inv rs _ (start_inv davPath maxRedirects noShibboleth davUrl)
  refine ⟨h1, h2, ?_⟩
  intro hw
  have := h3 hw
  simpa [start] using this

/-- A job that has received more replies than the bound is done. -/
theorem runJob_done (davPath : QString) (maxRedirects : Nat) (noShibboleth : Bool)
    (davUrl : QUrl) (rs : List Reply) (h : maxRedirects < rs.length) :
    (runJob davPath maxRedirects noShibboleth davUrl rs).discarded = true := by
  obtain ⟨⟨h1, _⟩, h2, h3⟩ := runJob_inv davPath maxRedirects noShibboleth davUrl rs
  by_contra hc
  have hw : (runJob davPath maxRedirects noShibboleth davUrl rs).discarded = false := by
    simpa using hc
  have := h3 hw
  rw [h2] at h1
  omega

end DetermineAuthTypeJob

/-- C2: for every bound `maxRedirects` and every stream of server replies,
`DetermineAuthTypeJob` is done after at most `maxRedirects + 1` replies and
has then emitted exactly one `authType` signal; at every moment of the run
the hop counter `_redirects` is at most `maxRedirects`, the number of GETs
sent again equals the hop counter, and at most one signal has been emitted. -/
theorem determineAuthType_terminates_within_bound (davPath : QString) (maxRedirects : Nat)
    (noShibboleth : Bool) (davUrl : QUrl) (replies : Nat → Reply) :
    (∃ n, n ≤ maxRedirects + 1
      ∧ (DetermineAuthTypeJob.runJob davPath maxRedirects noShibboleth davUrl
          (DetermineAuthTypeJob.firstReplies replies n)).discarded = true
      ∧ (DetermineAuthTypeJob.runJob davPath maxRedirects noShibboleth davUrl
          (DetermineAuthTypeJob.firstReplies replies n)).job.authType.length = 1)
    ∧ ∀ n,
      (DetermineAuthTypeJob.runJob davPath maxRedirects noShibboleth davUrl
          (DetermineAuthTypeJob.firstReplies replies n)).job._redirects ≤ maxRedirects
      ∧ (DetermineAuthTypeJob.runJob davPath maxRedirects noShibboleth davUrl
          (DetermineAuthTypeJob.firstReplies replies n)).job.requests.length
          = (DetermineAuthTypeJob.runJob davPath maxRedirects noShibboleth davUrl
              (DetermineAuthTypeJob.firstReplies replies n)).job._redirects + 1
      ∧ (DetermineAuthTypeJob.runJob davPath maxRedirects noShibboleth davUrl
          (DetermineAuthTypeJob.firstReplies replies n)).job.authType.length
          = (if (DetermineAuthTypeJob.runJob davPath maxRedirects noShibboleth davUrl
              (DetermineAuthTypeJob.firstReplies replies n)).discarded then 1 else 0)
      ∧ (maxRedirects < n →
          (DetermineAuthTypeJob.runJob davPath maxRedirects noShibboleth davUrl
            (DetermineAuthTypeJob.firstReplies replies n)).discarded = true) := by
  have key : ∀ n,
      (DetermineAuthTypeJob.runJob davPath maxRedirects noShibboleth davUrl
          (DetermineAuthTypeJob.firstReplies replies n)).job._redirects ≤ maxRedirects
      ∧ (DetermineAuthTypeJob.runJob davPath maxRedirects noShibboleth davUrl
          (DetermineAuthTypeJob.firstReplies replies n)).job.requests.length
          = (DetermineAuthTypeJob.runJob davPath maxRedirects noShibboleth davUrl
              (DetermineAuthTypeJob.firstReplies replies n)).job._redirects + 1
      ∧ (DetermineAuthTypeJob.runJob davPath maxRedirects noShibboleth davUrl
          (DetermineAuthTypeJob.firstReplies replies n)).job.authType.length
          = (if (DetermineAuthTypeJob.runJob davPath maxRedirects noShibboleth davUrl
              (DetermineAuthTypeJob.firstReplies replies n)).discarded then 1 else 0)
      ∧ (maxRedirects < n →
          (DetermineAuthTypeJob.runJob davPath maxRedirects noShibboleth davUrl
            (DetermineAuthTypeJob.firstReplies replies n)).discarded = true) := by
    intro n
    obtain ⟨⟨h1, h2, h3, h4⟩, hm, _⟩ := DetermineAuthTypeJob.runJob_inv davPath maxRedirects
      noShibboleth davUrl (DetermineAuthTypeJob.firstReplies replies n)
    refine ⟨by rw [hm] at h1; exact h1, h2, ?_, ?_⟩
    · cases hd : (DetermineAuthTypeJob.runJob davPath maxRedirects noShibboleth davUrl
          (DetermineAuthTypeJob.firstReplies replies n)).discarded
      · simp [h3 hd]
      · simp [h4 hd]
    · intro hn
      exact DetermineAuthTypeJob.runJob_done davPath maxRedirects noShibboleth davUrl _
        (by simpa [DetermineAuthTypeJob.firstReplies] using hn)
  refine ⟨⟨maxRedirects + 1, le_refl _, ?_, ?_⟩, key⟩
  · exact (key (maxRedirects + 1)).2.2.2 (Nat.lt_succ_self _)
  · have h := (key (maxRedirects + 1)).2.2.1
    rw [(key (maxRedirects + 1)).2.2.2 (Nat.lt_succ_self _)] at h
    simpa using h

/-- C3: `checkDowngradeAdvised` is the rule `advise` of the specification
applied to the scheme of the reply URL, the error of the reply and the
presence of a `Strict-Transport-Security` header: it is true exactly when the
scheme is `https`, the error is none of `NoError`, `ContentNotFoundError`,
`AuthenticationRequiredError`, `HostNotFoundError`, and the header is absent.
In particular `advise` is false on `https` with not-found and no header, on
`https` without header it is true exactly for the other errors, and it is
false on `http` for every error and header. -/
theorem checkDowngradeAdvised_eq_advise (reply : Reply) :
    checkDowngradeAdvised reply
      = advise reply.url.scheme reply.error
          (reply.hasRawHeader "Strict-Transport-Security".toList)
    ∧ (checkDowngradeAdvised reply = true ↔
        reply.url.scheme = "https".toList
        ∧ reply.error ≠ QNetworkReply.NoError
        ∧ reply.error ≠ QNetworkReply.ContentNotFoundError
        ∧ reply.error ≠ QNetworkReply.AuthenticationRequiredError
        ∧ reply.error ≠ QNetworkReply.HostNotFoundError
        ∧ reply.hasRawHeader "Strict-Transport-Security".toList = false)
    ∧ advise "https".toList QNetworkReply.ContentNotFoundError false = false
    ∧ (∀ e : NetworkError, advise "https".toList e false
        = !decide (e ∈ [QNetworkReply.NoError, QNetworkReply.ContentNotFoundError,
            QNetworkReply.AuthenticationRequiredError, QNetworkReply.HostNotFoundError]))
    ∧ advise "https".toList QNetworkReply.TimeoutError false = true
    ∧ (∀ (e : NetworkError) (h : Bool), advise "http".toList e h = false) := by
  refine ⟨?_, ?_, by decide, ?_, by decide, ?_⟩
  · unfold checkDowngradeAdvised advise
    by_cases hs : reply.url.scheme = "https".toList
    · by_cases he : reply.error = QNetworkReply.NoError
          ∨ reply.error = QNetworkReply.ContentNotFoundError
          ∨ reply.error = QNetworkReply.AuthenticationRequiredError
          ∨ reply.error = QNetworkReply.HostNotFoundError
      · have hm : reply.error ∈ [QNetworkReply.NoError, QNetworkReply.ContentNotFoundError,
            QNetworkReply.AuthenticationRequiredError, QNetworkReply.HostNotFoundError] := by
          simpa using he
        simp [hs, he, hm]
      · have hm : reply.error ∉ [QNetworkReply.NoError, QNetworkReply.ContentNotFoundError,
            QNetworkReply.AuthenticationRequiredError, QNetworkReply.HostNotFoundError] := by
          simpa using he
        cases hh : reply.hasRawHeader "Strict-Transport-Security".toList <;>
          simp [hs, he, hm, hh]
    · have e : "https".toList = ['h', 't', 't', 'p', 's'] := rfl
      rw [e] at hs
      simp [hs]
  · unfold checkDowngradeAdvised
    by_cases hs : reply.url.scheme = "https".toList
    · by_cases he : reply.error = QNetworkReply.NoError
          ∨ reply.error = QNetworkReply.ContentNotFoundError
          ∨ reply.error = QNetworkReply.AuthenticationRequiredError
          ∨ reply.error = QNetworkReply.HostNotFoundError
      · simp only [hs, he]
        simp
        tauto
      · cases hh : reply.hasRawHeader "Strict-Transport-Security".toList
        · simp only [hs, he, hh]
          simp
          tauto
        · simp [hs, he, hh]
    · have e : "https".toList = ['h', 't', 't', 'p', 's'] := rfl
      rw [e] at hs
      simp [hs]
  · intro e
    simp [advise]
  · intro e h
    have : ¬ ("http".toList = "https".toList) := by decide
    simp [advise, this]


/-! ### Folder provisioning -/

/-- What `finalizeSetup(success)` does: one `enableFinishOnResultWidget`
call with its argument, a successful step exactly on success, and nothing
else that is observed here. -/
theorem finalizeSetup_spec (w : Wizard) (success : Bool) :
    finalizeCalls (finalizeSetup w success).trace = finalizeCalls w.trace ++ [success]
    ∧ successfulSteps (finalizeSetup w success).trace
        = successfulSteps w.trace + (if success then 1 else 0)
    ∧ displayedErrors (finalizeSetup w success).trace = displayedErrors w.trace
    ∧ remoteRequests (finalizeSetup w success).trace = remoteRequests w.trace
    ∧ (finalizeSetup w success).pending = w.pending
    ∧ (finalizeSetup w success)._remoteFolder = w._remoteFolder
    ∧ (finalizeSetup w success).dirs = w.dirs := by
  unfold finalizeSetup
  cases success
  · simp [Wizard.appendToConfigurationLog, finalizeCalls, successfulSteps, displayedErrors,
      remoteRequests, List.filterMap_append, List.filter_append, List.count_append]
  · by_cases h : (w.localFolderProperty.isEmpty || w._remoteFolder.isEmpty) = true
    · simp [h, Wizard.appendToConfigurationLog, Wizard.successfulStep, finalizeCalls,
        successfulSteps, displayedErrors, remoteRequests, List.filterMap_append,
        List.filter_append, List.count_append]
    · simp [h, Wizard.appendToConfigurationLog, Wizard.successfulStep, finalizeCalls,
        successfulSteps, displayedErrors, remoteRequests, List.filterMap_append,
        List.filter_append, List.count_append]

/-- C4, as the code has it, for every response value outside 203..299:
`slotCreateRemoteFolderFinished` calls `finalizeSetup` exactly once, with
`true` exactly when the response is `NoError` or 202, and starts no request
(no retry).  On `NoError` and 202 no error is displayed and `_remoteFolder` is
kept.  On `OperationCanceledError` the fixed "credentials are wrong" error is
displayed, which carries no status code, and `_remoteFolder` is cleared.  On
every other value the error displayed carries the folder and the status code,
and `_remoteFolder` is cleared. -/
theorem slotCreateRemoteFolderFinished_classification (w : Wizard) (error : NetworkError)
    (hrange : ¬ (error > 202 ∧ error < 300)) :
    finalizeCalls (slotCreateRemoteFolderFinished w error).trace
        = finalizeCalls w.trace ++ [decide (error = QNetworkReply.NoError ∨ error = 202)]
    ∧ remoteRequests (slotCreateRemoteFolderFinished w error).trace = remoteRequests w.trace
    ∧ (slotCreateRemoteFolderFinished w error).pending = w.pending
    ∧ (error = QNetworkReply.NoError ∨ error = 202 →
        displayedErrors (slotCreateRemoteFolderFinished w error).trace = displayedErrors w.trace
        ∧ (slotCreateRemoteFolderFinished w error)._remoteFolder = w._remoteFolder)
    ∧ (error = QNetworkReply.OperationCanceledError →
        displayedErrors (slotCreateRemoteFolderFinished w error).trace
          = displayedErrors w.trace ++ [.credentialsWrong]
        ∧ (slotCreateRemoteFolderFinished w error)._remoteFolder = [])
    ∧ (error ≠ QNetworkReply.NoError → error ≠ 202 →
        error ≠ QNetworkReply.OperationCanceledError →
        displayedErrors (slotCreateRemoteFolderFinished w error).trace
          = displayedErrors w.trace ++ [.creationFailed w._remoteFolder error]
        ∧ (slotCreateRemoteFolderFinished w error)._remoteFolder = []) := by
  unfold slotCreateRemoteFolderFinished
  by_cases h0 : error = QNetworkReply.NoError
  · subst h0
    simp only [if_true]
    obtain ⟨f1, _, f3, f4, f5, f6, _⟩ := finalizeSetup_spec
      (w.appendToConfigurationLog (.remoteFolderCreated w._remoteFolder)) true
    rw [f1, f3, f4, f5, f6]
    simp [Wizard.appendToConfigurationLog, finalizeCalls, displayedErrors, remoteRequests,
      List.filterMap_append, List.filter_append, QNetworkReply.NoError,
      QNetworkReply.OperationCanceledError]
  · by_cases h202 : error = 202
    · subst h202
      have hne : ¬ ((202 : NetworkError) = QNetworkReply.NoError) := by decide
      simp only [hne, if_false, if_true]
      obtain ⟨f1, _, f3, f4, f5, f6, _⟩ := finalizeSetup_spec
        (w.appendToConfigurationLog (.remoteFolderAlreadyExists w._remoteFolder)) true
      rw [f1, f3, f4, f5, f6]
      simp [Wizard.appendToConfigurationLog, finalizeCalls, displayedErrors, remoteRequests,
        List.filterMap_append, List.filter_append, QNetworkReply.NoError,
        QNetworkReply.OperationCanceledError]
    · by_cases h5 : error = QNetworkReply.OperationCanceledError
      · subst h5
        have e1 : ¬ (QNetworkReply.OperationCanceledError = QNetworkReply.NoError) := by decide
        have e2 : ¬ (QNetworkReply.OperationCanceledError = (202 : NetworkError)) := by decide
        have e3 : ¬ (QNetworkReply.OperationCanceledError > (202 : NetworkError)
            ∧ QNetworkReply.OperationCanceledError < (300 : NetworkError)) := by decide
        simp only [e1, e2, e3, if_false, if_true]
        obtain ⟨f1, _, f3, f4, f5, f6, _⟩ := finalizeSetup_spec
          { (w.displayError .credentialsWrong false).appendToConfigurationLog
              .credentialsProbablyWrong with _remoteFolder := [] } false
        rw [f1, f3, f4, f5, f6]
        simp [Wizard.appendToConfigurationLog, Wizard.displayError, finalizeCalls,
          displayedErrors, remoteRequests, List.filterMap_append, List.filter_append, e1, e2]
      · simp only [h0, h202, hrange, h5, if_false]
        obtain ⟨f1, _, f3, f4, f5, f6, _⟩ := finalizeSetup_spec
          { ((w.appendToConfigurationLog (.creationFailed w._remoteFolder error)).displayError
              (.creationFailed (w.appendToConfigurationLog
                (.creationFailed w._remoteFolder error))._remoteFolder error) false)
            with _remoteFolder := [] } false
        rw [f1, f3, f4, f5, f6]
        simp [Wizard.appendToConfigurationLog, Wizard.displayError, finalizeCalls,
          displayedErrors, remoteRequests, List.filterMap_append, List.filter_append,
          h0, h202, h5]

/-- The theorem `slotCreateRemoteFolderFinished_classification` at the
response `ConnectionRefusedError`. -/
theorem slotCreateRemoteFolderFinished_classification_witness :
    ¬ (QNetworkReply.ConnectionRefusedError > 202 ∧ QNetworkReply.ConnectionRefusedError < 300)
    ∧ finalizeCalls (slotCreateRemoteFolderFinished Sample.wizard
        QNetworkReply.ConnectionRefusedError).trace = [false]
    ∧ displayedErrors (slotCreateRemoteFolderFinished Sample.wizard
        QNetworkReply.ConnectionRefusedError).trace
        = [.creationFailed "Documents".toList 1] :=
  have h := slotCreateRemoteFolderFinished_classification Sample.wizard
    QNetworkReply.ConnectionRefusedError (by decide)
  ⟨by decide, h.1, (h.2.2.2.2.2 (by decide) (by decide) (by decide)).1⟩

/-- C4 as stated fails: on the response 204 (`AuthenticationRequiredError`),
which is neither `NoError` nor 202, the step displays "The folder creation
resulted in HTTP error code 204" and then calls `finalizeSetup(true)`,
advancing the wizard; and on the credential failure
(`OperationCanceledError`) the error displayed is the fixed credentials text,
which carries no status code. -/
theorem creation_response_204_reports_success :
    finalizeCalls (slotCreateRemoteFolderFinished Sample.wizard
        QNetworkReply.AuthenticationRequiredError).trace = [true]
    ∧ displayedErrors (slotCreateRemoteFolderFinished Sample.wizard
        QNetworkReply.AuthenticationRequiredError).trace = [.httpErrorCode 204]
    ∧ successfulSteps (slotCreateRemoteFolderFinished Sample.wizard
        QNetworkReply.AuthenticationRequiredError).trace = 1
    ∧ displayedErrors (slotCreateRemoteFolderFinished Sample.wizard
        QNetworkReply.OperationCanceledError).trace = [.credentialsWrong] := by
  decide

/-- With no job waiting, no signal is delivered. -/
theorem dispatch_idle (env : Env) (w : Wizard) (o : JobOutcome) (h : w.pending = []) :
    dispatch env w o = w := by
  cases o <;> simp [dispatch, h]

/-- With no job waiting, a sequence of signals changes nothing. -/
theorem run_idle (env : Env) (w : Wizard) (os : List JobOutcome) (h : w.pending = []) :
    run env w os = w := by
  induction os with
  | nil => rfl
  | cons o os ih =>
    have : run env w (o :: os) = run env (dispatch env w o) os := rfl
    rw [this, dispatch_idle env w o h]
    exact ih

/-- C5: in `slotCreateLocalAndRemoteFolders` the local directory is present
after the local step exactly when it existed before or `mkpath` succeeded; in
that case, and only then, the existence probe (`EntityExistsJob`) on
`davPath + remoteFolder` is started, and `finalizeSetup` is not called.  When
the directory is absent after the local step (`mkpath` failed), no remote
request is started, the error is displayed, `finalizeSetup(false)` is called
once, and with no other job waiting nothing further happens in that run,
whatever signals arrive. -/
theorem remote_step_iff_local_directory_present (env : Env) (w : Wizard)
    (localFolder remoteFolder : QString) :
    (localFolder ∈ (slotCreateLocalAndRemoteFolders env w localFolder remoteFolder).dirs
      ↔ localFolder ∈ w.dirs ∨ env.mkpathSucceeds localFolder = true)
    ∧ (localFolder ∈ (slotCreateLocalAndRemoteFolders env w localFolder remoteFolder).dirs →
        remoteRequests (slotCreateLocalAndRemoteFolders env w localFolder remoteFolder).trace
          = remoteRequests w.trace
              ++ [.startEntityExistsJob (w.account.davPath ++ remoteFolder)]
        ∧ (slotCreateLocalAndRemoteFolders env w localFolder remoteFolder).pending
          = w.pending ++ [.entityExists]
        ∧ finalizeCalls (slotCreateLocalAndRemoteFolders env w localFolder remoteFolder).trace
          = finalizeCalls w.trace)
    ∧ (localFolder ∉ (slotCreateLocalAndRemoteFolders env w localFolder remoteFolder).dirs →
        remoteRequests (slotCreateLocalAndRemoteFolders env w localFolder remoteFolder).trace
          = remoteRequests w.trace
        ∧ (slotCreateLocalAndRemoteFolders env w localFolder remoteFolder).pending = w.pending
        ∧ finalizeCalls (slotCreateLocalAndRemoteFolders env w localFolder remoteFolder).trace
          = finalizeCalls w.trace ++ [false]
        ∧ displayedErrors (slotCreateLocalAndRemoteFolders env w localFolder remoteFolder).trace
          = displayedErrors w.trace ++ [.couldNotCreateLocalFolder localFolder]
        ∧ (w.pending = [] → ∀ os : List JobOutcome,
            run env (slotCreateLocalAndRemoteFolders env w localFolder remoteFolder) os
              = slotCreateLocalAndRemoteFolders env w localFolder remoteFolder)) := by
  by_cases hex : localFolder ∈ w.dirs
  · have hval : slotCreateLocalAndRemoteFolders env w localFolder remoteFolder
        = (w.appendToConfigurationLog (.localFolderExists localFolder)).startJob .entityExists
            (.startEntityExistsJob (w.account.davPath ++ remoteFolder)) := by
      simp [slotCreateLocalAndRemoteFolders, hex, Wizard.appendToConfigurationLog]
    rw [hval]
    have hd : localFolder ∈ ((w.appendToConfigurationLog
        (.localFolderExists localFolder)).startJob .entityExists
          (.startEntityExistsJob (w.account.davPath ++ remoteFolder))).dirs := hex
    refine ⟨⟨fun _ => Or.inl hex, fun _ => hd⟩, ?_, fun hn => absurd hd hn⟩
    intro _
    simp [Wizard.startJob, Wizard.appendToConfigurationLog, Wizard.emit, remoteRequests,
      finalizeCalls, List.filter_append, List.filterMap_append]
  · by_cases hmk : env.mkpathSucceeds localFolder = true
    · have hval : slotCreateLocalAndRemoteFolders env w localFolder remoteFolder
          = (((({ w with dirs := localFolder :: w.dirs }.emit (.mkpath localFolder true)).emit
              (.setFolderMinimumPermissions localFolder)).emit
              (.setupFavLink localFolder)).appendToConfigurationLog
              (.creatingLocalFolder localFolder true)).startJob .entityExists
              (.startEntityExistsJob (w.account.davPath ++ remoteFolder)) := by
        simp [slotCreateLocalAndRemoteFolders, hex, hmk, Wizard.appendToConfigurationLog]
      rw [hval]
      have hd : localFolder ∈ ((((({ w with dirs := localFolder :: w.dirs }.emit
              (.mkpath localFolder true)).emit
              (.setFolderMinimumPermissions localFolder)).emit
              (.setupFavLink localFolder)).appendToConfigurationLog
              (.creatingLocalFolder localFolder true)).startJob .entityExists
              (.startEntityExistsJob (w.account.davPath ++ remoteFolder))).dirs :=
        List.mem_cons_self _ _
      refine ⟨⟨fun _ => Or.inr hmk, fun _ => hd⟩, ?_, fun hn => absurd hd hn⟩
      intro _
      simp [Wizard.startJob, Wizard.appendToConfigurationLog, Wizard.emit, remoteRequests,
        finalizeCalls, List.filter_append, List.filterMap_append]
    · have hval : slotCreateLocalAndRemoteFolders env w localFolder remoteFolder
          = finalizeSetup ((((w.emit (.mkpath localFolder false)).displayError
              (.couldNotCreateLocalFolder localFolder) false).appendToConfigurationLog
              (.creatingLocalFolder localFolder false))) false := by
        simp [slotCreateLocalAndRemoteFolders, hex, hmk, Wizard.appendToConfigurationLog]
      rw [hval]
      obtain ⟨f1, _, f3, f4, f5, _, f7⟩ := finalizeSetup_spec
        ((((w.emit (.mkpath localFolder false)).displayError
          (.couldNotCreateLocalFolder localFolder) false).appendToConfigurationLog
          (.creatingLocalFolder localFolder false))) false
      have hnd : localFolder ∉ (finalizeSetup ((((w.emit (.mkpath localFolder false)).displayError
          (.couldNotCreateLocalFolder localFolder) false).appendToConfigurationLog
          (.creatingLocalFolder localFolder false))) false).dirs := by
        rw [f7]; exact hex
      refine ⟨⟨fun h => absurd h hnd, fun h => ?_⟩, fun h => absurd h hnd, fun _ => ?_⟩
      · rcases h with h | h
        · exact absurd h hex
        · exact absurd h hmk
      · refine ⟨?_, ?_, ?_, ?_, ?_⟩
        · rw [f4]
          simp [Wizard.appendToConfigurationLog, Wizard.displayError, remoteRequests,
            List.filter_append]
        · rw [f5]; rfl
        · rw [f1]
          simp [Wizard.appendToConfigurationLog, Wizard.displayError, finalizeCalls,
            List.filterMap_append]
        · rw [f3]
          simp [Wizard.appendToConfigurationLog, Wizard.displayError, displayedErrors,
            List.filterMap_append]
        · intro hp os
          apply run_idle
          rw [f5]; exact hp

/-! ### Persistence of the account -/

theorem persistence_emit (w : Wizard) (e : Effect) (h : e.persistsNothing = true) :
    persistence (w.emit e).trace = persistence w.trace := by
  cases e <;>
    simp_all [Effect.persistsNothing, persistence, addedAccounts, saves, addedFolders,
      List.filterMap_append, List.count_append]

/-- The backup dialogue calls neither the account manager nor `addFolder`. -/
theorem ensureStartFromScratch_spec (localFolder : QString) (renamed : Bool) :
    ∀ (retries : Nat) (w : Wizard),
      addedAccounts (ensureStartFromScratch w localFolder retries renamed).1.trace
          = addedAccounts w.trace
      ∧ saves (ensureStartFromScratch w localFolder retries renamed).1.trace = saves w.trace
      ∧ addedFolders (ensureStartFromScratch w localFolder retries renamed).1.trace
          = addedFolders w.trace
      ∧ (ensureStartFromScratch w localFolder retries renamed).1._remoteFolder
          = w._remoteFolder
      ∧ (ensureStartFromScratch w localFolder retries renamed).1.basicSetupFinishedConnected
          = w.basicSetupFinishedConnected
      ∧ (ensureStartFromScratch w localFolder retries renamed).2 = renamed := by
  intro retries
  induction retries with
  | zero =>
    intro w
    cases renamed <;>
      simp [ensureStartFromScratch, addedAccounts, saves, addedFolders,
        List.filterMap_append, List.count_append]
  | succ n ih =>
    intro w
    obtain ⟨h1, h2, h3, h4, h5, h6⟩ :=
      ih ((w.emit (.startFromScratch localFolder false)).emit (.question .Retry))
    rw [ensureStartFromScratch]
    refine ⟨?_, ?_, ?_, ?_, ?_, ?_⟩
    · rw [h1]; simp [addedAccounts, List.filterMap_append]
    · rw [h2]; simp [saves, List.count_append]
    · rw [h3]; simp [addedFolders, List.filterMap_append]
    · rw [h4]; rfl
    · rw [h5]; rfl
    · exact h6

/-- What `applyAccountChanges` does: the account of the wizard is added to the
account manager, once, and saved, once. -/
theorem applyAccountChanges_spec (env : Env) (w : Wizard) :
    addedAccounts (applyAccountChanges env w).1.trace = addedAccounts w.trace ++ [w.account]
    ∧ saves (applyAccountChanges env w).1.trace = saves w.trace + 1
    ∧ addedFolders (applyAccountChanges env w).1.trace = addedFolders w.trace
    ∧ (applyAccountChanges env w).2 = w.account
    ∧ (applyAccountChanges env w).1._remoteFolder = w._remoteFolder
    ∧ (applyAccountChanges env w).1.basicSetupFinishedConnected
        = w.basicSetupFinishedConnected := by
  simp [applyAccountChanges, Wizard.emit, addedAccounts, saves, addedFolders,
    List.filterMap_append, List.count_append]

/-- An accepted finish persists the account of the wizard exactly once. -/
theorem slotAssistantFinished_accepted (env : Env) (w : Wizard) (a : FinishAnswers) :
    addedAccounts (slotAssistantFinished env w QDialog.Accepted a).trace
        = addedAccounts w.trace ++ [w.account]
    ∧ saves (slotAssistantFinished env w QDialog.Accepted a).trace = saves w.trace + 1 := by
  obtain ⟨p1, p2, _⟩ := applyAccountChanges_spec env w
  obtain ⟨e1, e2, _⟩ := ensureStartFromScratch_spec (env.prepareLocalPath a.localFolder)
    a.renamed a.retries (applyAccountChanges env w).1
  have hne : ¬ (QDialog.Accepted = QDialog.Rejected) := by decide
  unfold slotAssistantFinished
  simp only [hne, if_false, if_true]
  cases hs : a.startFromScratch
  · cases ha : a.addFolderSucceeds <;> cases hb : a.isConfirmBigFolderChecked <;>
      simp [Wizard.appendToConfigurationLog, Wizard.emit, addedAccounts, saves,
        List.filterMap_append, List.count_append] <;>
      simp only [addedAccounts, saves] at p1 p2 <;> simp [p1, p2]
  · cases hg : (ensureStartFromScratch (applyAccountChanges env w).1
        (env.prepareLocalPath a.localFolder) a.retries a.renamed).2
    · simp only [addedAccounts, saves] at p1 p2 e1 e2
      simp [hg, Wizard.emit, addedAccounts, saves, List.filterMap_append,
        List.count_append, e1, e2, p1, p2]
    · simp only [addedAccounts, saves] at p1 p2 e1 e2
      cases ha : a.addFolderSucceeds <;> cases hb : a.isConfirmBigFolderChecked <;>
        simp [hg, Wizard.appendToConfigurationLog, Wizard.emit, addedAccounts, saves,
          List.filterMap_append, List.count_append, e1, e2, p1, p2]

/-! #### Calls on the account manager, slot by slot -/

namespace DetermineAuthTypeJob

/-- A reply without redirect target ends the job with `HttpCreds`. -/
theorem finished_noRedirect (j : DetermineAuthTypeJob) (reply : Reply)
    (h : reply.redirectionTarget.isEmpty = true) :
    finished j reply = ({ j with authType := j.authType ++ [.HttpCreds] }, true) := by
  unfold finished
  by_cases hb : j._redirects ≥ j.maxRedirects
  · simp [hb, QUrl.clear, QUrl.isEmpty]
  · simp [hb, h]

/-- A reply received when the hop counter has reached the bound ends the job
with `HttpCreds`. -/
theorem finished_atBound (j : DetermineAuthTypeJob) (reply : Reply)
    (h : j._redirects ≥ j.maxRedirects) :
    finished j reply = ({ j with authType := j.authType ++ [.HttpCreds] }, true) := by
  unfold finished
  simp [h, QUrl.clear, QUrl.isEmpty]

/-- A same-service redirect received below the bound is followed. -/
theorem finished_sameService (j : DetermineAuthTypeJob) (reply : Reply)
    (hb : j._redirects < j.maxRedirects)
    (hs : sameServiceRedirect j.davPath reply = true) :
    finished j reply
      = ({ j with _redirects := j._redirects + 1
                  timeoutResets := j.timeoutResets + 1
                  requests := j.requests ++ [reply.redirectionTarget] }, false) := by
  simp only [sameServiceRedirect, Bool.and_eq_true, decide_eq_true_eq, Bool.not_eq_true'] at hs
  obtain ⟨⟨h1, h2⟩, h3⟩ := hs
  unfold finished
  have hb2 : ¬ (j._redirects ≥ j.maxRedirects) := by omega
  simp [hb2, h1, h2, h3]

/-- A waiting job answered by same-service redirects that fit below the bound
follows every one of them and keeps waiting. -/
theorem foldl_sameService (davPath : QString) (rs : List Reply) :
    ∀ st : Running, st.discarded = false → st.job.davPath = davPath →
      (∀ r ∈ rs, sameServiceRedirect davPath r = true) →
      st.job._redirects + rs.length ≤ st.job.maxRedirects →
      (rs.foldl slotFinished st).discarded = false
      ∧ (rs.foldl slotFinished st).job._redirects = st.job._redirects + rs.length
      ∧ (rs.foldl slotFinished st).job.maxRedirects = st.job.maxRedirects
      ∧ (rs.foldl slotFinished st).job.davPath = davPath
      ∧ (rs.foldl slotFinished st).job.authType = st.job.authType
      ∧ (rs.foldl slotFinished st).job.requests
          = st.job.requests ++ rs.map (fun r => r.redirectionTarget) := by
  induction rs with
  | nil => intro st hd hp _ _; simp [hd, hp]
  | cons r rs ih =>
    intro st hd hp hall hlen
    simp only [List.length_cons] at hlen
    have hr : sameServiceRedirect st.job.davPath r = true := by
      rw [hp]; exact hall r (List.mem_cons_self _ _)
    have hstep : slotFinished st r
        = { job := { st.job with _redirects := st.job._redirects + 1
                                 timeoutResets := st.job.timeoutResets + 1
                                 requests := st.job.requests ++ [r.redirectionTarget] },
            discarded := false } := by
      rw [slotFinished_of_waiting st r hd, finished_sameService st.job r (by omega) hr]
    obtain ⟨i1, i2, i3, i4, i5, i6⟩ := ih (slotFinished st r) (by rw [hstep]) (by rw [hstep]; exact hp)
      (fun x hx => hall x (List.mem_cons_of_mem _ hx)) (by rw [hstep]; simp; omega)
    simp only [List.foldl_cons, List.length_cons, List.map_cons]
    refine ⟨i1, ?_, ?_, i4, ?_, ?_⟩
    · rw [i2, hstep]; simp; omega
    · rw [i3, hstep]
    · rw [i5, hstep]
    · rw [i6, hstep]; simp

end DetermineAuthTypeJob

/-- The test `contains` finds exactly the contiguous substrings. -/
theorem contains_iff (s needle : QString) :
    contains s needle = true ↔ ∃ a b, s = a ++ needle ++ b := by
  have key : contains s needle = true ↔ needle <:+: s := by
    induction s with
    | nil =>
      cases needle <;> simp [contains]
    | cons c cs ih =>
      rw [contains, Bool.or_eq_true, ih, List.infix_cons_iff, List.isPrefixOf_iff_prefix]
  rw [key]
  constructor
  · rintro ⟨a, b, h⟩; exact ⟨a, b, h.symm⟩
  · rintro ⟨a, b, h⟩; exact ⟨a, b, h.symm⟩

/-- A token occurs in a string without regard to letter case when some
contiguous part of the string lower-cases to the token. -/
theorem contains_toLower_iff (s needle : QString) :
    contains (toLower s) needle = true
      ↔ ∃ a t b, s = a ++ t ++ b ∧ toLower t = needle := by
  rw [contains_iff]
  constructor
  · rintro ⟨a, b, h⟩
    rw [toLower, List.map_eq_append_iff] at h
    obtain ⟨l1, l2, h1, h2, h3⟩ := h
    rw [List.map_eq_append_iff] at h2
    obtain ⟨l3, l4, h4, _, h6⟩ := h2
    exact ⟨l3, l4, l2, by rw [h1, h4], h6⟩
  · rintro ⟨a, t, b, h1, h2⟩
    exact ⟨toLower a, toLower b, by simp [h1, toLower, ← h2]⟩

/-- C8, as the code has it: the indicator tokens decide the classification
only for a foreign redirect.  For a reply that is no authentication
challenge, received below the hop bound, whose redirect URL is not empty and
does not end with the WebDAV path, in a build with Shibboleth support,
`finished()` ends the job and emits `Shibboleth` if the redirect URL contains
"saml" or "wayf" in any letter case, that is, if some contiguous part of it
lower-cases to one of the two tokens, and `HttpCreds` if it does not. -/
theorem foreign_redirect_classification (j : DetermineAuthTypeJob) (reply : Reply)
    (hbound : j._redirects < j.maxRedirects)
    (hauth : reply.error ≠ QNetworkReply.AuthenticationRequiredError)
    (hredirect : reply.redirectionTarget.isEmpty = false)
    (hforeign : endsWith reply.redirectionTarget.toString j.davPath = false)
    (hshib : j.noShibboleth = false) :
    DetermineAuthTypeJob.finished j reply
        = ({ j with authType := j.authType ++
              [if DetermineAuthTypeJob.containsShibbolethyWords reply.redirectionTarget.toString
                then AuthType.Shibboleth else AuthType.HttpCreds] }, true)
    ∧ (DetermineAuthTypeJob.containsShibbolethyWords reply.redirectionTarget.toString = true
        ↔ ∃ a t b, reply.redirectionTarget.toString = a ++ t ++ b
            ∧ (toLower t = "saml".toList ∨ toLower t = "wayf".toList)) := by
  constructor
  · unfold DetermineAuthTypeJob.finished
    have hb2 : ¬ (j._redirects ≥ j.maxRedirects) := by omega
    cases hc : DetermineAuthTypeJob.containsShibbolethyWords reply.redirectionTarget.toString <;>
      simp [hb2, hauth, hredirect, hforeign, hshib, hc]
  · unfold DetermineAuthTypeJob.containsShibbolethyWords
    rw [Bool.or_eq_true, contains_toLower_iff, contains_toLower_iff]
    constructor
    · rintro (⟨a, t, b, h1, h2⟩ | ⟨a, t, b, h1, h2⟩)
      · exact ⟨a, t, b, h1, Or.inl h2⟩
      · exact ⟨a, t, b, h1, Or.inr h2⟩
    · rintro ⟨a, t, b, h1, h2 | h2⟩
      · exact Or.inl ⟨a, t, b, h1, h2⟩
      · exact Or.inr ⟨a, t, b, h1, h2⟩

/-- The theorem `foreign_redirect_classification` at a redirect to an identity
provider, received by a job that has followed no hop yet. -/
theorem foreign_redirect_classification_witness :
    (DetermineAuthTypeJob.finished
        (DetermineAuthTypeJob.start Sample.davPath 10 false Sample.davUrl)
        Sample.redirectSaml).1.authType = [AuthType.Shibboleth]
    ∧ (DetermineAuthTypeJob.finished
        (DetermineAuthTypeJob.start Sample.davPath 10 false Sample.davUrl)
        Sample.redirectLogin).1.authType = [AuthType.HttpCreds] :=
  have h1 := (foreign_redirect_classification
    (DetermineAuthTypeJob.start Sample.davPath 10 false Sample.davUrl) Sample.redirectSaml
    (by decide) (by decide) (by decide) (by decide) rfl).1
  have h2 := (foreign_redirect_classification
    (DetermineAuthTypeJob.start Sample.davPath 10 false Sample.davUrl) Sample.redirectLogin
    (by decide) (by decide) (by decide) (by decide) rfl).1
  ⟨by rw [h1]; decide, by rw [h2]; decide⟩

/-- C8 as stated fails in both halves.  A redirect to
`https://saml.example.org/remote.php/webdav/` contains the token "saml", yet
it ends with the WebDAV path and is followed instead of being classified as
Shibboleth; and a redirect to an identity provider (`.../SAML2/Redirect`)
received when the hop bound is reached is classified `HttpCreds`.  And a
redirect without token that ends with the
WebDAV path is not classified `HttpCreds`: it is followed, and the job
answered by it and then by a redirect to an identity provider emits
`Shibboleth`. -/
theorem token_in_same_service_redirect_is_not_Shibboleth :
    DetermineAuthTypeJob.containsShibbolethyWords
        Sample.redirectSamlHost.redirectionTarget.toString = true
    ∧ DetermineAuthTypeJob.finished
        (DetermineAuthTypeJob.start Sample.davPath 10 false Sample.davUrl)
        Sample.redirectSamlHost
        = ({ DetermineAuthTypeJob.start Sample.davPath 10 false Sample.davUrl with
              _redirects := 1, timeoutResets := 1,
              requests := [Sample.davUrl, Sample.redirectSamlHost.redirectionTarget] }, false)
    ∧ (DetermineAuthTypeJob.runJob Sample.davPath 1 false Sample.davUrl
        [Sample.redirectA, Sample.redirectSaml]).job.authType = [AuthType.HttpCreds]
    ∧ DetermineAuthTypeJob.containsShibbolethyWords
        Sample.redirectA.redirectionTarget.toString = false
    ∧ (DetermineAuthTypeJob.finished
        (DetermineAuthTypeJob.start Sample.davPath 10 false Sample.davUrl)
        Sample.redirectA).1.authType = []
    ∧ (DetermineAuthTypeJob.runJob Sample.davPath 10 false Sample.davUrl
        [Sample.redirectA, Sample.redirectSaml]).job.authType = [AuthType.Shibboleth] := by
  decide

/-- C9: when the server answers the first requests of `DetermineAuthTypeJob`
with the same-service redirects `sames` (no authentication challenge, redirect
target ending with the WebDAV path), then (a) if there are at most
`maxRedirects` of them and the next reply carries no redirect target, the job
ends with the single signal `HttpCreds`, having followed every one of them;
(b) if there are more than `maxRedirects` of them, the job ends with the
single signal `HttpCreds` after following exactly `maxRedirects` hops,
whatever the later replies are. -/
theorem same_service_chain_ends_with_HttpCreds (davPath : QString) (maxRedirects : Nat)
    (noShibboleth : Bool) (davUrl : QUrl) (sames : List Reply) (next : Reply)
    (later : List Reply)
    (hsame : ∀ r ∈ sames, DetermineAuthTypeJob.sameServiceRedirect davPath r = true) :
    (sames.length ≤ maxRedirects → next.redirectionTarget.isEmpty = true →
      (DetermineAuthTypeJob.runJob davPath maxRedirects noShibboleth davUrl
          (sames ++ next :: later)).discarded = true
      ∧ (DetermineAuthTypeJob.runJob davPath maxRedirects noShibboleth davUrl
          (sames ++ next :: later)).job.authType = [AuthType.HttpCreds]
      ∧ (DetermineAuthTypeJob.runJob davPath maxRedirects noShibboleth davUrl
          (sames ++ next :: later)).job._redirects = sames.length)
    ∧ (maxRedirects < sames.length →
      (DetermineAuthTypeJob.runJob davPath maxRedirects noShibboleth davUrl
          (sames ++ later)).discarded = true
      ∧ (DetermineAuthTypeJob.runJob davPath maxRedirects noShibboleth davUrl
          (sames ++ later)).job.authType = [AuthType.HttpCreds]
      ∧ (DetermineAuthTypeJob.runJob davPath maxRedirects noShibboleth davUrl
          (sames ++ later)).job._redirects = maxRedirects
      ∧ (DetermineAuthTypeJob.runJob davPath maxRedirects noShibboleth davUrl
          (sames ++ later)).job.requests.length = maxRedirects + 1) := by
  constructor
  · intro hlen hnext
    obtain ⟨f1, f2, _, _, f5, _⟩ := DetermineAuthTypeJob.foldl_sameService davPath sames
      { job := DetermineAuthTypeJob.start davPath maxRedirects noShibboleth davUrl,
        discarded := false } rfl rfl hsame
      (by simpa [DetermineAuthTypeJob.start] using hlen)
    have hrun : DetermineAuthTypeJob.runJob davPath maxRedirects noShibboleth davUrl
        (sames ++ next :: later)
        = later.foldl DetermineAuthTypeJob.slotFinished
            (DetermineAuthTypeJob.slotFinished
              (sames.foldl DetermineAuthTypeJob.slotFinished
                { job := DetermineAuthTypeJob.start davPath maxRedirects noShibboleth davUrl,
                  discarded := false }) next) := by
      simp [DetermineAuthTypeJob.runJob, List.foldl_append]
    have hstep := DetermineAuthTypeJob.slotFinished_of_waiting _ next f1
    rw [DetermineAuthTypeJob.finished_noRedirect _ next hnext] at hstep
    rw [hrun, hstep, DetermineAuthTypeJob.foldl_discarded later _ rfl]
    refine ⟨rfl, ?_, ?_⟩
    · show _ ++ [AuthType.HttpCreds] = [AuthType.HttpCreds]
      rw [f5]; rfl
    · show (sames.foldl DetermineAuthTypeJob.slotFinished _).job._redirects = sames.length
      rw [f2]; simp [DetermineAuthTypeJob.start]
  · intro hlen
    have hsplit : sames = sames.take maxRedirects ++ sames.drop maxRedirects :=
      (List.take_append_drop _ _).symm
    have htake : (sames.take maxRedirects).length = maxRedirects := by
      rw [List.length_take]; omega
    obtain ⟨f1, f2, f3, _, f5, f6⟩ := DetermineAuthTypeJob.foldl_sameService davPath
      (sames.take maxRedirects)
      { job := DetermineAuthTypeJob.start davPath maxRedirects noShibboleth davUrl,
        discarded := false } rfl rfl
      (fun r hr => hsame r (List.mem_of_mem_take hr))
      (by rw [htake]; simp [DetermineAuthTypeJob.start])
    cases hdrop : sames.drop maxRedirects with
    | nil =>
      have := congrArg List.length hdrop
      rw [List.length_drop] at this
      simp at this
      omega
    | cons r0 tl =>
      have hrun : DetermineAuthTypeJob.runJob davPath maxRedirects noShibboleth davUrl
          (sames ++ later)
          = (tl ++ later).foldl DetermineAuthTypeJob.slotFinished
              (DetermineAuthTypeJob.slotFinished
                ((sames.take maxRedirects).foldl DetermineAuthTypeJob.slotFinished
                  { job := DetermineAuthTypeJob.start davPath maxRedirects noShibboleth
                      davUrl,
                    discarded := false }) r0) := by
        conv_lhs => rw [hsplit, hdrop]
        simp [DetermineAuthTypeJob.runJob, List.foldl_append]
      have hstep := DetermineAuthTypeJob.slotFinished_of_waiting _ r0 f1
      rw [DetermineAuthTypeJob.finished_atBound _ r0
        (by rw [f2, f3, htake]; simp [DetermineAuthTypeJob.start])] at hstep
      rw [hrun, hstep, DetermineAuthTypeJob.foldl_discarded (tl ++ later) _ rfl]
      refine ⟨rfl, ?_, ?_, ?_⟩
      · show _ ++ [AuthType.HttpCreds] = [AuthType.HttpCreds]
        rw [f5]; rfl
      · show ((sames.take maxRedirects).foldl DetermineAuthTypeJob.slotFinished _).job._redirects
          = maxRedirects
        rw [f2, htake]; simp [DetermineAuthTypeJob.start]
      · show ((sames.take maxRedirects).foldl
          DetermineAuthTypeJob.slotFinished _).job.requests.length = maxRedirects + 1
        rw [f6]; simp [DetermineAuthTypeJob.start, htake]; omega

/-- The theorem `same_service_chain_ends_with_HttpCreds` at the bound 2: one
same-service redirect and then a reply without redirect target, and three
same-service redirects and then a redirect to an identity provider. -/
theorem same_service_chain_ends_with_HttpCreds_witness :
    (∀ r ∈ [Sample.redirectA], DetermineAuthTypeJob.sameServiceRedirect Sample.davPath r = true)
    ∧ (DetermineAuthTypeJob.runJob Sample.davPath 2 false Sample.davUrl
        ([Sample.redirectA] ++ Sample.notFound :: [])).job.authType = [AuthType.HttpCreds]
    ∧ (∀ r ∈ [Sample.redirectA, Sample.redirectB, Sample.redirectA],
        DetermineAuthTypeJob.sameServiceRedirect Sample.davPath r = true)
    ∧ (DetermineAuthTypeJob.runJob Sample.davPath 2 false Sample.davUrl
        ([Sample.redirectA, Sample.redirectB, Sample.redirectA]
          ++ [Sample.redirectSaml])).job._redirects = 2 :=
  have h1 : ∀ r ∈ [Sample.redirectA],
      DetermineAuthTypeJob.sameServiceRedirect Sample.davPath r = true := by decide
  have h3 : ∀ r ∈ [Sample.redirectA, Sample.redirectB, Sample.redirectA],
      DetermineAuthTypeJob.sameServiceRedirect Sample.davPath r = true := by decide
  ⟨h1,
   ((same_service_chain_ends_with_HttpCreds Sample.davPath 2 false Sample.davUrl
      [Sample.redirectA] Sample.notFound [] h1).1 (by decide) (by decide)).2.1,
   h3,
   ((same_service_chain_ends_with_HttpCreds Sample.davPath 2 false Sample.davUrl
      [Sample.redirectA, Sample.redirectB, Sample.redirectA] Sample.notFound
      [Sample.redirectSaml] h3).2 (by decide)).2.2.1⟩

/-! ### The authenticated verification: not found is success -/

/-- C10: in `slotAuthError`, a reply that carries no redirect target and whose
error is `ContentNotFoundError` is a success: the only call made is
`successfulStep()`, no error is displayed, no request is issued, and the URL
of the account is unchanged.  A reply that carries a redirect target never
leads to `successfulStep()` in `slotAuthError`, whatever its error,
`ContentNotFoundError` included. -/
theorem slotAuthError_not_found_is_success (env : Env) (w : Wizard) (reply : Reply) :
    (reply.redirectionTarget.isEmpty = true →
      reply.error = QNetworkReply.ContentNotFoundError →
      (slotAuthError env w reply).trace = w.trace ++ [.successfulStep]
      ∧ successfulSteps (slotAuthError env w reply).trace = successfulSteps w.trace + 1
      ∧ displayedErrors (slotAuthError env w reply).trace = displayedErrors w.trace
      ∧ (slotAuthError env w reply).account = w.account
      ∧ (slotAuthError env w reply).pending = w.pending)
    ∧ (reply.redirectionTarget.isEmpty = false →
      successfulSteps (slotAuthError env w reply).trace = successfulSteps w.trace) := by
  constructor
  · intro he hn
    have hval : slotAuthError env w reply = w.successfulStep := by
      simp [slotAuthError, he, hn]
    rw [hval]
    simp [Wizard.successfulStep, Wizard.emit, successfulSteps, displayedErrors,
      List.count_append, List.filterMap_append]
  · intro he
    by_cases hc : endsWith reply.redirectionTarget.path (expectedPathOf w) = true
    · rw [slotAuthError_correcting env w reply (by simp [correctingRedirect, he, hc])]
      simp [successfulSteps, List.count_append]
    · have hval : slotAuthError env w reply
          = slotAuthErrorDisplay { w with expectedPath := some (expectedPathOf w) } reply
              (.redirectedMisconfigured reply.redirectionTarget.toString) := by
        simp only [expectedPathOf] at hc
        simp [slotAuthError, he, hc, expectedPathOf]
      rw [hval]
      exact (slotAuthErrorDisplay_spec _ reply _).2.2.2.2.1

/-- The theorem `slotAuthError_not_found_is_success` at a not-found reply
without redirect target, and at a not-found reply that carries a redirect
target. -/
theorem slotAuthError_not_found_is_success_witness :
    (slotAuthError Sample.env Sample.wizard Sample.notFound).trace = [.successfulStep]
    ∧ successfulSteps (slotAuthError Sample.env Sample.wizard
        (Sample.reply QNetworkReply.ContentNotFoundError
          Sample.redirectLogin.redirectionTarget)).trace = 0 :=
  ⟨((slotAuthError_not_found_is_success Sample.env Sample.wizard Sample.notFound).1
      (by decide) (by decide)).1,
   (slotAuthError_not_found_is_success Sample.env Sample.wizard
      (Sample.reply QNetworkReply.ContentNotFoundError
        Sample.redirectLogin.redirectionTarget)).2 (by decide)⟩

/-! ### Folder provisioning: when success is signalled -/

/-- C7 on the code: with the local folder created, the existence probe
answered not-found and the MKCOL answered `ConnectionRefusedError`,
`finalizeSetup(true)` has already been called when the MKCOL is still
waiting for its reply (finish enabled, one successful step), and
`finalizeSetup(false)` follows when the MKCOL fails: the result is reported
twice and success is signalled although the remote step fails. -/
theorem success_signalled_before_remote_folder_created :
    (run Sample.env
        (slotCreateLocalAndRemoteFolders Sample.env Sample.wizard
          "/home/u/ownCloud".toList "Documents".toList)
        [.entityExists Sample.notFound]).pending = [.mkCol]
    ∧ finalizeCalls (run Sample.env
        (slotCreateLocalAndRemoteFolders Sample.env Sample.wizard
          "/home/u/ownCloud".toList "Documents".toList)
        [.entityExists Sample.notFound]).trace = [true]
    ∧ successfulSteps (run Sample.env
        (slotCreateLocalAndRemoteFolders Sample.env Sample.wizard
          "/home/u/ownCloud".toList "Documents".toList)
        [.entityExists Sample.notFound]).trace = 1
    ∧ finalizeCalls (run Sample.env
        (slotCreateLocalAndRemoteFolders Sample.env Sample.wizard
          "/home/u/ownCloud".toList "Documents".toList)
        [.entityExists Sample.notFound,
         .mkColFinished QNetworkReply.ConnectionRefusedError]).trace = [true, false]
    ∧ successfulSteps (run Sample.env
        (slotCreateLocalAndRemoteFolders Sample.env Sample.wizard
          "/home/u/ownCloud".toList "Documents".toList)
        [.entityExists Sample.notFound,
         .mkColFinished QNetworkReply.ConnectionRefusedError]).trace = 1 := by
  decide

/-! ### The authenticated verification: the other errors -/

/-- C11, as the code has it: in `slotAuthError`, for a reply with no redirect
target and an error other than `NoError` and `ContentNotFoundError`, the
error displayed is "access forbidden, ask in browser" when the credentials
report the reply as a credential failure (`stillValid(reply)` is false), and
the transport error with the error text and body of the reply when they do
not (`stillValid(reply)` is true).  A reply with no redirect target and
`NoError` displays the "invalid response" error.  In none of these cases is
a successful step made or a request issued. -/
theorem slotAuthError_other_errors (env : Env) (w : Wizard) (reply : Reply)
    (hredirect : reply.redirectionTarget.isEmpty = true)
    (hfound : reply.error ≠ QNetworkReply.ContentNotFoundError) :
    (reply.error ≠ QNetworkReply.NoError → env.stillValid reply = false →
      displayedErrors (slotAuthError env w reply).trace
        = displayedErrors w.trace ++ [.accessForbidden w.account.url.toString])
    ∧ (reply.error ≠ QNetworkReply.NoError → env.stillValid reply = true →
      displayedErrors (slotAuthError env w reply).trace
        = displayedErrors w.trace ++ [.errorMessage reply.errorString reply.body])
    ∧ (reply.error = QNetworkReply.NoError →
      displayedErrors (slotAuthError env w reply).trace
        = displayedErrors w.trace ++ [.invalidResponse])
    ∧ successfulSteps (slotAuthError env w reply).trace = successfulSteps w.trace
    ∧ propfindRequests (slotAuthError env w reply).trace = propfindRequests w.trace
    ∧ (slotAuthError env w reply).pending = w.pending := by
  by_cases he : reply.error = QNetworkReply.NoError
  · have hval : slotAuthError env w reply = slotAuthErrorDisplay w reply .invalidResponse := by
      have hne : ¬ (QNetworkReply.NoError = QNetworkReply.ContentNotFoundError) := by decide
      simp [slotAuthError, hredirect, he, hne]
    rw [hval]
    obtain ⟨d1, _, d3, d4, d5, _⟩ := slotAuthErrorDisplay_spec w reply .invalidResponse
    exact ⟨fun h => absurd he h, fun h => absurd he h, fun _ => d3, d5, d4, d1⟩
  · cases hv : env.stillValid reply
    · have hval : slotAuthError env w reply
          = slotAuthErrorDisplay w reply (.accessForbidden w.account.url.toString) := by
        simp [slotAuthError, hredirect, hfound, he, hv]
      rw [hval]
      obtain ⟨d1, _, d3, d4, d5, _⟩ := slotAuthErrorDisplay_spec w reply
        (.accessForbidden w.account.url.toString)
      exact ⟨fun _ _ => d3, fun _ h => (by cases h), fun h => absurd h he, d5, d4, d1⟩
    · have hval : slotAuthError env w reply
          = slotAuthErrorDisplay w reply (.errorMessage reply.errorString reply.body) := by
        simp [slotAuthError, hredirect, hfound, he, hv]
      rw [hval]
      obtain ⟨d1, _, d3, d4, d5, _⟩ := slotAuthErrorDisplay_spec w reply
        (.errorMessage reply.errorString reply.body)
      exact ⟨fun _ h => (by cases h), fun _ _ => d3, fun h => absurd h he, d5, d4, d1⟩

/-- The theorem `slotAuthError_other_errors` at an authentication-required
reply that the credentials report as a credential failure, and at a reply
without error. -/
theorem slotAuthError_other_errors_witness :
    displayedErrors (slotAuthError Sample.envRejected Sample.wizard Sample.unauthorized).trace
        = [.accessForbidden "https://cloud.example.org".toList]
    ∧ displayedErrors (slotAuthError Sample.env Sample.wizard Sample.unparsable).trace
        = [.invalidResponse] :=
  ⟨(slotAuthError_other_errors Sample.envRejected Sample.wizard Sample.unauthorized
      (by decide) (by decide)).1 (by decide) rfl,
   (slotAuthError_other_errors Sample.env Sample.wizard Sample.unparsable
      (by decide) (by decide)).2.2.1 (by decide)⟩

/-- C11 as stated fails: for an authentication-required reply without redirect
target, credentials for which `stillValid(reply)` holds lead to the transport
error with the error text of the reply, not to "access forbidden"; and
credentials for which it does not hold lead to "access forbidden", not to the
transport error. -/
theorem stillValid_gives_transport_error :
    Sample.unauthorized.redirectionTarget.isEmpty = true
    ∧ Sample.env.stillValid Sample.unauthorized = true
    ∧ displayedErrors (slotAuthError Sample.env Sample.wizard Sample.unauthorized).trace
        = [.errorMessage "error".toList []]
    ∧ Sample.envRejected.stillValid Sample.unauthorized = false
    ∧ displayedErrors (slotAuthError Sample.envRejected Sample.wizard
        Sample.unauthorized).trace
        = [.accessForbidden "https://cloud.example.org".toList] := by
  decide

/-! ### Commit: the folder registered with the account -/

/-- C12, as the code has it: `slotAssistantFinished(Accepted)` persists the
account of the wizard once, and registers a folder with it, by exactly one
`addFolder` call with `localPath = prepareLocalPath(local folder of the
wizard)`, `targetPath = prepareTargetPath(_remoteFolder)` and the
hidden-files setting of the folder manager, when "sync from scratch" is off
or the backup of the local folder succeeds.  When "sync from scratch" is on
and the backup is aborted, the account is persisted and no folder is
registered.  The skip edge persists the account and registers no folder. -/
theorem accepted_finish_registers_folder_unless_backup_aborted (env : Env) (w : Wizard)
    (a : FinishAnswers) :
    addedAccounts (slotAssistantFinished env w QDialog.Accepted a).trace
        = addedAccounts w.trace ++ [w.account]
    ∧ addedFolders (slotAssistantFinished env w QDialog.Accepted a).trace
        = addedFolders w.trace ++
            (if !a.startFromScratch || a.renamed then
              [(w.account,
                { localPath := env.prepareLocalPath a.localFolder
                  targetPath := env.prepareTargetPath w._remoteFolder
                  ignoreHiddenFiles := env.ignoreHiddenFiles })]
            else [])
    ∧ addedAccounts (slotSkipFolderConfiguration env w).trace
        = addedAccounts w.trace ++ [w.account]
    ∧ addedFolders (slotSkipFolderConfiguration env w).trace = addedFolders w.trace := by
  obtain ⟨_, _, p3, p4, p5, _⟩ := applyAccountChanges_spec env w
  obtain ⟨_, _, e3, e4, _, e6⟩ := ensureStartFromScratch_spec (env.prepareLocalPath a.localFolder)
    a.renamed a.retries (applyAccountChanges env w).1
  refine ⟨(slotAssistantFinished_accepted env w a).1, ?_, ?_, ?_⟩
  · have hne : ¬ (QDialog.Accepted = QDialog.Rejected) := by decide
    unfold slotAssistantFinished
    simp only [hne, if_false, if_true]
    simp only [addedFolders] at p3 e3 ⊢
    cases hs : a.startFromScratch
    · cases ha : a.addFolderSucceeds <;> cases hb : a.isConfirmBigFolderChecked <;>
        simp [Wizard.appendToConfigurationLog, Wizard.emit, List.filterMap_append, p3, p4, p5]
    · cases hr : a.renamed
      · rw [hr] at e3 e6
        simp [e6, Wizard.emit, List.filterMap_append, e3, p3]
      · rw [hr] at e3 e4 e6
        cases ha : a.addFolderSucceeds <;> cases hb : a.isConfirmBigFolderChecked <;>
          simp [e6, Wizard.appendToConfigurationLog, Wizard.emit, List.filterMap_append,
            e3, e4, p3, p4, p5]
  · simp [slotSkipFolderConfiguration, applyAccountChanges, Wizard.emit, addedAccounts,
      List.filterMap_append]
  · simp [slotSkipFolderConfiguration, applyAccountChanges, Wizard.emit, addedFolders,
      List.filterMap_append]

/-- C12 as stated fails: on an accepted finish with "sync from scratch" on,
when the backup of the local folder fails and the user aborts, the account is
added and saved and `addFolder` is not called. -/
theorem aborted_backup_persists_account_without_folder :
    addedAccounts (slotAssistantFinished Sample.env Sample.wizard QDialog.Accepted
        Sample.answersAborted).trace = [Sample.account]
    ∧ saves (slotAssistantFinished Sample.env Sample.wizard QDialog.Accepted
        Sample.answersAborted).trace = 1
    ∧ addedFolders (slotAssistantFinished Sample.env Sample.wizard QDialog.Accepted
        Sample.answersAborted).trace = [] := by
  decide

/-! ### Folder provisioning: probe not found, creation already exists -/

/-- The existence probe answered not-found with a remote folder remembered:
the MKCOL is started and `finalizeSetup(true)` is called. -/
theorem slotRemoteFolderExists_notFound (w : Wizard) (reply : Reply)
    (hfolder : w._remoteFolder ≠ [])
    (herr : reply.error = QNetworkReply.ContentNotFoundError) :
    slotRemoteFolderExists w reply = finalizeSetup (createRemoteFolder w) true := by
  have hne : ¬ (QNetworkReply.ContentNotFoundError = QNetworkReply.NoError) := by decide
  have hf : w._remoteFolder.isEmpty = false := by
    cases h : w._remoteFolder with
    | nil => exact absurd h hfolder
    | cons _ _ => rfl
  simp [slotRemoteFolderExists, herr, hne, hf]

/-- The creation answered with the status 202: the folder is taken as
existing and `finalizeSetup(true)` is called. -/
theorem slotCreateRemoteFolderFinished_202 (w : Wizard) :
    slotCreateRemoteFolderFinished w 202
      = finalizeSetup (w.appendToConfigurationLog
          (.remoteFolderAlreadyExists w._remoteFolder)) true := by
  have hne : ¬ ((202 : NetworkError) = QNetworkReply.NoError) := by decide
  simp [slotCreateRemoteFolderFinished, hne]

/-- C13: in a run with a remembered remote folder that is not empty, in which
the existence probe replies `ContentNotFoundError` and the MKCOL started for
it replies with the "already exists" status 202, the overall result is
success: both `finalizeSetup` calls of the run have the argument `true`, no
error is displayed, `_remoteFolder` is unchanged, the only request started is
the MKCOL on `_remoteFolder`, and no job is left waiting. -/
theorem not_found_then_already_exists_is_success (env : Env) (w : Wizard) (probe : Reply)
    (hwaiting : w.pending = [.entityExists])
    (hfolder : w._remoteFolder ≠ [])
    (herr : probe.error = QNetworkReply.ContentNotFoundError) :
    finalizeCalls (run env w [.entityExists probe, .mkColFinished 202]).trace
        = finalizeCalls w.trace ++ [true, true]
    ∧ displayedErrors (run env w [.entityExists probe, .mkColFinished 202]).trace
        = displayedErrors w.trace
    ∧ (run env w [.entityExists probe, .mkColFinished 202])._remoteFolder = w._remoteFolder
    ∧ remoteRequests (run env w [.entityExists probe, .mkColFinished 202]).trace
        = remoteRequests w.trace ++ [.startMkColJob w._remoteFolder]
    ∧ (run env w [.entityExists probe, .mkColFinished 202]).pending = [] := by
  have h1 : dispatch env w (.entityExists probe)
      = finalizeSetup (createRemoteFolder { w with pending := [] }) true := by
    have : dispatch env w (.entityExists probe)
        = slotRemoteFolderExists { w with pending := [] } probe := by
      simp [dispatch, hwaiting]
    rw [this]
    exact slotRemoteFolderExists_notFound { w with pending := [] } probe hfolder herr
  obtain ⟨a1, _, a3, a4, a5, a6, _⟩ :=
    finalizeSetup_spec (createRemoteFolder { w with pending := [] }) true
  have hp1 : (finalizeSetup (createRemoteFolder { w with pending := [] }) true).pending
      = [.mkCol] := by
    rw [a5]; simp [createRemoteFolder, Wizard.startJob, Wizard.appendToConfigurationLog]
  have h2 : dispatch env (finalizeSetup (createRemoteFolder { w with pending := [] }) true)
        (.mkColFinished 202)
      = slotCreateRemoteFolderFinished
          { finalizeSetup (createRemoteFolder { w with pending := [] }) true with
            pending := [] } 202 := by
    simp [dispatch, hp1]
  have hrun : run env w [.entityExists probe, .mkColFinished 202]
      = slotCreateRemoteFolderFinished
          { finalizeSetup (createRemoteFolder { w with pending := [] }) true with
            pending := [] } 202 := by
    simp only [run, List.foldl_cons, List.foldl_nil]
    rw [h1, h2]
  rw [hrun, slotCreateRemoteFolderFinished_202]
  obtain ⟨b1, _, b3, b4, b5, b6, _⟩ := finalizeSetup_spec
    (({ finalizeSetup (createRemoteFolder { w with pending := [] }) true with
        pending := [] } : Wizard).appendToConfigurationLog
      (.remoteFolderAlreadyExists
        ({ finalizeSetup (createRemoteFolder { w with pending := [] }) true with
          pending := [] } : Wizard)._remoteFolder)) true
  have c6 : (createRemoteFolder { w with pending := [] })._remoteFolder = w._remoteFolder := by
    simp [createRemoteFolder, Wizard.startJob, Wizard.appendToConfigurationLog]
  refine ⟨?_, ?_, ?_, ?_, ?_⟩
  · rw [b1]
    simp only [Wizard.appendToConfigurationLog, Wizard.trace_emit, finalizeCalls,
      List.filterMap_append] at a1 ⊢
    rw [a1]
    simp [createRemoteFolder, Wizard.startJob, Wizard.appendToConfigurationLog,
      List.filterMap_append]
  · rw [b3]
    simp only [Wizard.appendToConfigurationLog, Wizard.trace_emit, displayedErrors,
      List.filterMap_append] at a3 ⊢
    rw [a3]
    simp [createRemoteFolder, Wizard.startJob, Wizard.appendToConfigurationLog,
      List.filterMap_append]
  · rw [b6]
    show (finalizeSetup (createRemoteFolder { w with pending := [] }) true)._remoteFolder
      = w._remoteFolder
    rw [a6, c6]
  · rw [b4]
    simp only [Wizard.appendToConfigurationLog, Wizard.trace_emit, remoteRequests,
      List.filter_append] at a4 ⊢
    rw [a4]
    simp [createRemoteFolder, Wizard.startJob, Wizard.appendToConfigurationLog,
      List.filter_append]
  · rw [b5]; rfl

/-- The theorem `not_found_then_already_exists_is_success` at the sample
wizard waiting for the reply to its existence probe. -/
theorem not_found_then_already_exists_is_success_witness :
    finalizeCalls (run Sample.env { Sample.wizard with pending := [.entityExists] }
        [.entityExists Sample.notFound, .mkColFinished 202]).trace = [true, true]
    ∧ displayedErrors (run Sample.env { Sample.wizard with pending := [.entityExists] }
        [.entityExists Sample.notFound, .mkColFinished 202]).trace = [] :=
  have h := not_found_then_already_exists_is_success Sample.env
    { Sample.wizard with pending := [.entityExists] } Sample.notFound rfl (by decide) rfl
  ⟨h.1, h.2.1⟩

/-! ### The discovery reply: the canonical URL -/

/-- Cutting a string that ends with the discovery suffix at its length less
eleven removes exactly the suffix. -/
theorem left_status_php (p : QString) (h : endsWith p "/status.php".toList = true) :
    left p (p.length - 11) ++ "/status.php".toList = p := by
  rw [endsWith, List.isSuffixOf_iff_suffix] at h
  obtain ⟨t, ht⟩ := h
  have hlen : ("/status.php".toList).length = 11 := by decide
  have hp : p.length - 11 = t.length := by
    rw [← ht, List.length_append, hlen]; omega
  rw [left, hp]
  conv_lhs => rw [← ht]
  rw [List.take_left]
  exact ht

/-- C14: in `slotOwnCloudFoundAuth`, when the path of the responding URL ends
with "/status.php", the URL of the account becomes the responding URL with
exactly that suffix removed from its path (the new path followed by
"/status.php" is the old path) and with scheme, host, port, query and fragment
unchanged; when the path does not end with the suffix the URL of the account
is not modified.  In both cases the server version of the account is the
version read from the reply, and the `DetermineAuthTypeJob` is started for
the account as updated. -/
theorem slotOwnCloudFoundAuth_canonical_url (w : Wizard) (url : QUrl) (info : ServerInfo) :
    (endsWith url.path "/status.php".toList = true →
      (slotOwnCloudFoundAuth w url info).account.url
          = { url with path := left url.path (url.path.length - 11) }
      ∧ (slotOwnCloudFoundAuth w url info).account.url.path ++ "/status.php".toList = url.path
      ∧ (slotOwnCloudFoundAuth w url info).account.url.scheme = url.scheme
      ∧ (slotOwnCloudFoundAuth w url info).account.url.host = url.host
      ∧ (slotOwnCloudFoundAuth w url info).account.url.port = url.port
      ∧ (slotOwnCloudFoundAuth w url info).account.url.query = url.query
      ∧ (slotOwnCloudFoundAuth w url info).account.url.fragment = url.fragment
      ∧ urlCorrections (slotOwnCloudFoundAuth w url info).trace
          = urlCorrections w.trace ++ [{ url with path := left url.path (url.path.length - 11) }])
    ∧ (endsWith url.path "/status.php".toList = false →
      (slotOwnCloudFoundAuth w url info).account.url = w.account.url
      ∧ urlCorrections (slotOwnCloudFoundAuth w url info).trace = urlCorrections w.trace)
    ∧ (slotOwnCloudFoundAuth w url info).account.serverVersion = info.version
    ∧ (slotOwnCloudFoundAuth w url info).account.davPath = w.account.davPath
    ∧ (slotOwnCloudFoundAuth w url info).trace.getLast?
        = some (.startDetermineAuthTypeJob (slotOwnCloudFoundAuth w url info).account.url) := by
  by_cases h : endsWith url.path "/status.php".toList = true
  · have h' : endsWith url.path ['/', 's', 't', 'a', 't', 'u', 's', '.', 'p', 'h', 'p']
        = true := h
    have hval : (slotOwnCloudFoundAuth w url info).account.url
        = { url with path := left url.path (url.path.length - 11) } := by
      simp [slotOwnCloudFoundAuth, h', Wizard.setUrl, Wizard.appendToConfigurationLog,
        Wizard.emit, QUrl.setPath]
    refine ⟨fun _ => ⟨hval, ?_, ?_, ?_, ?_, ?_, ?_, ?_⟩, fun hn => ?_, ?_, ?_, ?_⟩
    · rw [hval]; exact left_status_php url.path h
    · rw [hval]
    · rw [hval]
    · rw [hval]
    · rw [hval]
    · rw [hval]
    · simp [slotOwnCloudFoundAuth, h', Wizard.setUrl, Wizard.appendToConfigurationLog,
        Wizard.emit, QUrl.setPath, urlCorrections, List.filterMap_append]
    · rw [h] at hn; cases hn
    · simp [slotOwnCloudFoundAuth, h', Wizard.setUrl, Wizard.appendToConfigurationLog,
        Wizard.emit]
    · simp [slotOwnCloudFoundAuth, h', Wizard.setUrl, Wizard.appendToConfigurationLog,
        Wizard.emit]
    · simp [slotOwnCloudFoundAuth, h', Wizard.setUrl, Wizard.appendToConfigurationLog,
        Wizard.emit, List.getLast?_append]
  · have hf : endsWith url.path ['/', 's', 't', 'a', 't', 'u', 's', '.', 'p', 'h', 'p']
        = false := by simpa using h
    refine ⟨fun hp => absurd hp h, fun _ => ⟨?_, ?_⟩, ?_, ?_, ?_⟩
    · simp [slotOwnCloudFoundAuth, hf, Wizard.appendToConfigurationLog, Wizard.emit]
    · simp [slotOwnCloudFoundAuth, hf, Wizard.appendToConfigurationLog, Wizard.emit,
        urlCorrections, List.filterMap_append]
    · simp [slotOwnCloudFoundAuth, hf, Wizard.appendToConfigurationLog, Wizard.emit]
    · simp [slotOwnCloudFoundAuth, hf, Wizard.appendToConfigurationLog, Wizard.emit]
    · simp [slotOwnCloudFoundAuth, hf, Wizard.appendToConfigurationLog, Wizard.emit,
        List.getLast?_append]

/-! ### The local step, twice -/

/-- C15: when the first call of `slotCreateLocalAndRemoteFolders` creates the
local directory (it was absent and `mkpath` succeeds), a second call on the
same path, whatever `mkpath` would answer then, takes the "already exists"
branch: it leaves the file system as the first call left it, calls neither
`mkpath` nor the permission and favourite helpers, displays no error, does
not call `finalizeSetup`, and starts the existence probe on the same remote
path as the first call did. -/
theorem second_local_step_already_exists (env env2 : Env) (w : Wizard)
    (localFolder remoteFolder : QString)
    (habsent : localFolder ∉ w.dirs) (hcreated : env.mkpathSucceeds localFolder = true) :
    (slotCreateLocalAndRemoteFolders env w localFolder remoteFolder).trace
        = w.trace ++ [.mkpath localFolder true, .setFolderMinimumPermissions localFolder,
            .setupFavLink localFolder,
            .appendToConfigurationLog (.creatingLocalFolder localFolder true),
            .startEntityExistsJob (w.account.davPath ++ remoteFolder)]
    ∧ (slotCreateLocalAndRemoteFolders env w localFolder remoteFolder).dirs
        = localFolder :: w.dirs
    ∧ (slotCreateLocalAndRemoteFolders env2
        (slotCreateLocalAndRemoteFolders env w localFolder remoteFolder)
        localFolder remoteFolder).trace
        = (slotCreateLocalAndRemoteFolders env w localFolder remoteFolder).trace
            ++ [.appendToConfigurationLog (.localFolderExists localFolder),
                .startEntityExistsJob (w.account.davPath ++ remoteFolder)]
    ∧ (slotCreateLocalAndRemoteFolders env2
        (slotCreateLocalAndRemoteFolders env w localFolder remoteFolder)
        localFolder remoteFolder).dirs
        = (slotCreateLocalAndRemoteFolders env w localFolder remoteFolder).dirs
    ∧ displayedErrors (slotCreateLocalAndRemoteFolders env2
        (slotCreateLocalAndRemoteFolders env w localFolder remoteFolder)
        localFolder remoteFolder).trace = displayedErrors w.trace
    ∧ finalizeCalls (slotCreateLocalAndRemoteFolders env2
        (slotCreateLocalAndRemoteFolders env w localFolder remoteFolder)
        localFolder remoteFolder).trace = finalizeCalls w.trace := by
  have h1 : slotCreateLocalAndRemoteFolders env w localFolder remoteFolder
      = { w with
          dirs := localFolder :: w.dirs
          pending := w.pending ++ [.entityExists]
          trace := w.trace ++ [.mkpath localFolder true,
            .setFolderMinimumPermissions localFolder, .setupFavLink localFolder,
            .appendToConfigurationLog (.creatingLocalFolder localFolder true),
            .startEntityExistsJob (w.account.davPath ++ remoteFolder)] } := by
    simp [slotCreateLocalAndRemoteFolders, habsent, hcreated, Wizard.appendToConfigurationLog,
      Wizard.startJob, Wizard.emit]
  have h2 : ∀ v : Wizard, localFolder ∈ v.dirs →
      slotCreateLocalAndRemoteFolders env2 v localFolder remoteFolder
        = { v with
            pending := v.pending ++ [.entityExists]
            trace := v.trace ++ [.appendToConfigurationLog (.localFolderExists localFolder),
              .startEntityExistsJob (v.account.davPath ++ remoteFolder)] } := by
    intro v hv
    simp [slotCreateLocalAndRemoteFolders, hv, Wizard.appendToConfigurationLog,
      Wizard.startJob, Wizard.emit]
  rw [h2 _ (by rw [h1]; exact List.mem_cons_self _ _), h1]
  simp [displayedErrors, finalizeCalls, List.filterMap_append]

/-- The theorem `second_local_step_already_exists` at the sample wizard, the
second call being made where no directory can be created. -/
theorem second_local_step_already_exists_witness :
    "/home/u/ownCloud".toList ∉ Sample.wizard.dirs
    ∧ (slotCreateLocalAndRemoteFolders Sample.envReadOnly
        (slotCreateLocalAndRemoteFolders Sample.env Sample.wizard
          "/home/u/ownCloud".toList "Documents".toList)
        "/home/u/ownCloud".toList "Documents".toList).dirs = ["/home/u/ownCloud".toList]
    ∧ displayedErrors (slotCreateLocalAndRemoteFolders Sample.envReadOnly
        (slotCreateLocalAndRemoteFolders Sample.env Sample.wizard
          "/home/u/ownCloud".toList "Documents".toList)
        "/home/u/ownCloud".toList "Documents".toList).trace = [] :=
  have h := second_local_step_already_exists Sample.env Sample.envReadOnly Sample.wizard
    "/home/u/ownCloud".toList "Documents".toList (by decide) rfl
  ⟨by decide, h.2.2.2.1.trans h.2.1, h.2.2.2.2.1⟩

/-! ### `DetermineAuthTypeJob`: the hop counter and the same-service test -/

namespace DetermineAuthTypeJob

/-- A job answered by same-service redirects only follows as many of them as
the bound allows. -/
theorem runJob_sameService (davPath : QString) (maxRedirects : Nat) (noShibboleth : Bool)
    (davUrl : QUrl) (sames : List Reply)
    (hsame : ∀ r ∈ sames, sameServiceRedirect davPath r = true) :
    (runJob davPath maxRedirects noShibboleth davUrl sames).job._redirects
        = min sames.length maxRedirects
    ∧ (runJob davPath maxRedirects noShibboleth davUrl sames).discarded
        = decide (maxRedirects < sames.length)
    ∧ (runJob davPath maxRedirects noShibboleth davUrl sames).job.authType
        = (if maxRedirects < sames.length then [AuthType.HttpCreds] else []) := by
  by_cases hlen : maxRedirects < sames.length
  · have hsplit : sames = sames.take maxRedirects ++ sames.drop maxRedirects :=
      (List.take_append_drop _ _).symm
    have htake : (sames.take maxRedirects).length = maxRedirects := by
      rw [List.length_take]; omega
    obtain ⟨f1, f2, f3, _, f5, _⟩ := foldl_sameService davPath (sames.take maxRedirects)
      { job := start davPath maxRedirects noShibboleth davUrl, discarded := false } rfl rfl
      (fun r hr => hsame r (List.mem_of_mem_take hr))
      (by rw [htake]; simp [start])
    cases hdrop : sames.drop maxRedirects with
    | nil =>
      have := congrArg List.length hdrop
      rw [List.length_drop] at this
      simp at this
      omega
    | cons r0 tl =>
      have hrun : runJob davPath maxRedirects noShibboleth davUrl sames
          = tl.foldl slotFinished
              (slotFinished
                ((sames.take maxRedirects).foldl slotFinished
                  { job := start davPath maxRedirects noShibboleth davUrl,
                    discarded := false }) r0) := by
        conv_lhs => rw [hsplit, hdrop]
        simp [runJob, List.foldl_append]
      have hstep := slotFinished_of_waiting _ r0 f1
      rw [finished_atBound _ r0 (by rw [f2, f3, htake]; simp [start])] at hstep
      rw [hrun, hstep, foldl_discarded tl _ rfl]
      refine ⟨?_, ?_, ?_⟩
      · show ((sames.take maxRedirects).foldl slotFinished _).job._redirects = _
        rw [f2, htake]; simp [start]; omega
      · simp [hlen]
      · show _ ++ [AuthType.HttpCreds] = _
        rw [f5]; simp [hlen, start]
  · obtain ⟨f1, f2, _, _, f5, _⟩ := foldl_sameService davPath sames
      { job := start davPath maxRedirects noShibboleth davUrl, discarded := false } rfl rfl
      hsame (by simp [start]; omega)
    refine ⟨?_, ?_, ?_⟩
    · show (sames.foldl slotFinished _).job._redirects = _
      rw [f2]; simp [start]; omega
    · show (sames.foldl slotFinished _).discarded = _
      rw [f1]; simp [hlen]
    · show (sames.foldl slotFinished _).job.authType = _
      rw [f5]; simp [hlen, start]

end DetermineAuthTypeJob

/-- C16, as the code has it: on a same-service redirect `finished()` compares
the hop counter with `maxRedirects` before incrementing it.  When the counter
is below `maxRedirects` it is incremented and the GET is sent again to the
new target; otherwise the counter is left as it is and the job ends with
`HttpCreds`.  Hence a run of same-service redirects is followed
`maxRedirects` times when it is that long, and entirely when it is shorter:
after `n` of them the counter is the smaller of `n` and `maxRedirects`, and
the job has ended, with `HttpCreds`, exactly when `n` exceeds
`maxRedirects`. -/
theorem same_service_redirect_followed_up_to_bound (j : DetermineAuthTypeJob)
    (reply : Reply) (davUrl : QUrl) (sames : List Reply)
    (hreply : DetermineAuthTypeJob.sameServiceRedirect j.davPath reply = true)
    (hsame : ∀ r ∈ sames, DetermineAuthTypeJob.sameServiceRedirect j.davPath r = true) :
    (j._redirects < j.maxRedirects →
      DetermineAuthTypeJob.finished j reply
        = ({ j with _redirects := j._redirects + 1
                    timeoutResets := j.timeoutResets + 1
                    requests := j.requests ++ [reply.redirectionTarget] }, false))
    ∧ (j.maxRedirects ≤ j._redirects →
      DetermineAuthTypeJob.finished j reply
        = ({ j with authType := j.authType ++ [.HttpCreds] }, true))
    ∧ (DetermineAuthTypeJob.runJob j.davPath j.maxRedirects j.noShibboleth davUrl
        sames).job._redirects = min sames.length j.maxRedirects
    ∧ (DetermineAuthTypeJob.runJob j.davPath j.maxRedirects j.noShibboleth davUrl
        sames).discarded = decide (j.maxRedirects < sames.length)
    ∧ (DetermineAuthTypeJob.runJob j.davPath j.maxRedirects j.noShibboleth davUrl
        sames).job.authType
        = (if j.maxRedirects < sames.length then [AuthType.HttpCreds] else []) := by
  obtain ⟨r1, r2, r3⟩ := DetermineAuthTypeJob.runJob_sameService j.davPath j.maxRedirects
    j.noShibboleth davUrl sames hsame
  exact ⟨fun h => DetermineAuthTypeJob.finished_sameService j reply h hreply,
    fun h => DetermineAuthTypeJob.finished_atBound j reply h, r1, r2, r3⟩

/-- The theorem `same_service_redirect_followed_up_to_bound` at the bound 1
and two same-service redirects. -/
theorem same_service_redirect_followed_up_to_bound_witness :
    DetermineAuthTypeJob.sameServiceRedirect Sample.davPath Sample.redirectA = true
    ∧ (DetermineAuthTypeJob.finished
        (DetermineAuthTypeJob.start Sample.davPath 1 false Sample.davUrl)
        Sample.redirectA).2 = false
    ∧ (DetermineAuthTypeJob.runJob Sample.davPath 1 false Sample.davUrl
        [Sample.redirectA, Sample.redirectB]).job._redirects = 1 :=
  have hA : DetermineAuthTypeJob.sameServiceRedirect Sample.davPath Sample.redirectA = true := by
    decide
  have hall : ∀ r ∈ [Sample.redirectA, Sample.redirectB],
      DetermineAuthTypeJob.sameServiceRedirect Sample.davPath r = true := by decide
  have h := same_service_redirect_followed_up_to_bound
    (DetermineAuthTypeJob.start Sample.davPath 1 false Sample.davUrl) Sample.redirectA
    Sample.davUrl [Sample.redirectA, Sample.redirectB] hA hall
  ⟨hA, by rw [h.1 (by decide)], h.2.2.1⟩

/-- C16 as stated fails: with `maxRedirects = 1` a single same-service
redirect is followed (the counter becomes 1, the GET is sent again, no signal
is emitted), and of two same-service redirects one is followed, which is
`maxRedirects` and not `maxRedirects - 1`. -/
theorem single_redirect_followed_at_bound_one :
    DetermineAuthTypeJob.sameServiceRedirect Sample.davPath Sample.redirectA = true
    ∧ DetermineAuthTypeJob.runJob Sample.davPath 1 false Sample.davUrl [Sample.redirectA]
        = { job := { DetermineAuthTypeJob.start Sample.davPath 1 false Sample.davUrl with
                      _redirects := 1, timeoutResets := 1,
                      requests := [Sample.davUrl, Sample.redirectA.redirectionTarget] },
            discarded := false }
    ∧ (DetermineAuthTypeJob.runJob Sample.davPath 1 false Sample.davUrl
        [Sample.redirectA, Sample.redirectB]).job._redirects = 1
    ∧ (DetermineAuthTypeJob.runJob Sample.davPath 1 false Sample.davUrl
        [Sample.redirectA, Sample.redirectB]).job.requests
        = [Sample.davUrl, Sample.redirectA.redirectionTarget] := by
  decide

/-- C17 as stated fails: `finished()` tests the whole redirect URL as a string,
query included, not its path.  A redirect to the login page of an identity
provider whose query ends with the WebDAV path (path `/SAML2/login`, which
does not end with the WebDAV path) is treated as a same-service redirect and
followed, and not inspected for the tokens it contains; a redirect whose path
ends with the WebDAV path and that carries a query is treated as a foreign
redirect and classified. -/
theorem same_service_test_reads_query :
    endsWith Sample.redirectIdpReturn.redirectionTarget.path Sample.davPath = false
    ∧ DetermineAuthTypeJob.containsShibbolethyWords
        Sample.redirectIdpReturn.redirectionTarget.toString = true
    ∧ DetermineAuthTypeJob.finished
        (DetermineAuthTypeJob.start Sample.davPath 10 false Sample.davUrl)
        Sample.redirectIdpReturn
        = ({ DetermineAuthTypeJob.start Sample.davPath 10 false Sample.davUrl with
              _redirects := 1, timeoutResets := 1,
              requests := [Sample.davUrl, Sample.redirectIdpReturn.redirectionTarget] },
            false)
    ∧ endsWith Sample.redirectWithQuery.redirectionTarget.path Sample.davPath = true
    ∧ DetermineAuthTypeJob.finished
        (DetermineAuthTypeJob.start Sample.davPath 10 false Sample.davUrl)
        Sample.redirectWithQuery
        = ({ DetermineAuthTypeJob.start Sample.davPath 10 false Sample.davUrl with
              authType := [.HttpCreds] }, true) := by
  decide

/-- The path of a URL without query and fragment is the end of its string. -/
theorem QUrl.toString_endsWith_of_path (u : QUrl) (suffix : QString)
    (hq : u.query = []) (hf : u.fragment = [])
    (h : endsWith u.path suffix = true) : endsWith u.toString suffix = true := by
  rw [endsWith, List.isSuffixOf_iff_suffix] at h ⊢
  obtain ⟨t, ht⟩ := h
  refine ⟨(if u.scheme.isEmpty then [] else u.scheme ++ [':'])
    ++ (if u.host.isEmpty then [] else
        ['/', '/'] ++ u.host ++ (if u.port < 0 then [] else ':' :: QUrl.digits u.port.toNat))
    ++ t, ?_⟩
  simp [QUrl.toString, hq, hf, ← ht, List.append_assoc]

/-- C17, as the code has it: for a reply that is no authentication challenge,
received below the hop bound, with a redirect target that is not empty, the
redirect is treated as a same-service redirect (followed, not classified) if
and only if the redirect URL as a string, query and fragment included, ends
with the WebDAV path; a redirect whose URL string does not end with it is
treated as a foreign redirect and inspected for the SSO tokens.  For a
redirect URL without query and fragment, a path that ends with the WebDAV
path makes the redirect a same-service redirect. -/
theorem same_service_test_is_on_url_string (j : DetermineAuthTypeJob) (reply : Reply)
    (hbound : j._redirects < j.maxRedirects)
    (hauth : reply.error ≠ QNetworkReply.AuthenticationRequiredError)
    (hredirect : reply.redirectionTarget.isEmpty = false) :
    ((DetermineAuthTypeJob.finished j reply).2 = false
      ↔ endsWith reply.redirectionTarget.toString j.davPath = true)
    ∧ (endsWith reply.redirectionTarget.toString j.davPath = true →
      DetermineAuthTypeJob.finished j reply
        = ({ j with _redirects := j._redirects + 1
                    timeoutResets := j.timeoutResets + 1
                    requests := j.requests ++ [reply.redirectionTarget] }, false))
    ∧ (endsWith reply.redirectionTarget.toString j.davPath = false →
      DetermineAuthTypeJob.finished j reply
        = ({ j with authType := j.authType ++
              [if !j.noShibboleth
                  && DetermineAuthTypeJob.containsShibbolethyWords
                      reply.redirectionTarget.toString
                then AuthType.Shibboleth else AuthType.HttpCreds] }, true))
    ∧ (reply.redirectionTarget.query = [] → reply.redirectionTarget.fragment = [] →
      endsWith reply.redirectionTarget.path j.davPath = true →
      (DetermineAuthTypeJob.finished j reply).2 = false) := by
  have hb2 : ¬ (j._redirects ≥ j.maxRedirects) := by omega
  have hfollow : endsWith reply.redirectionTarget.toString j.davPath = true →
      DetermineAuthTypeJob.finished j reply
        = ({ j with _redirects := j._redirects + 1
                    timeoutResets := j.timeoutResets + 1
                    requests := j.requests ++ [reply.redirectionTarget] }, false) := by
    intro h
    exact DetermineAuthTypeJob.finished_sameService j reply hbound
      (by simp [DetermineAuthTypeJob.sameServiceRedirect, hauth, hredirect, h])
  have hforeign : endsWith reply.redirectionTarget.toString j.davPath = false →
      DetermineAuthTypeJob.finished j reply
        = ({ j with authType := j.authType ++
              [if !j.noShibboleth
                  && DetermineAuthTypeJob.containsShibbolethyWords
                      reply.redirectionTarget.toString
                then AuthType.Shibboleth else AuthType.HttpCreds] }, true) := by
    intro h
    unfold DetermineAuthTypeJob.finished
    cases hc : (!j.noShibboleth
        && DetermineAuthTypeJob.containsShibbolethyWords reply.redirectionTarget.toString)
    · simp only [Bool.and_eq_false_imp, Bool.not_eq_true', Bool.not_eq_false] at hc
      cases hn : j.noShibboleth
      · have hcw := hc hn
        simp [hb2, hauth, hredirect, h, hn, hcw]
      · simp [hb2, hauth, hredirect, h, hn]
    · simp only [Bool.and_eq_true, Bool.not_eq_true'] at hc
      simp [hb2, hauth, hredirect, h, hc.1, hc.2]
  have hiff : (DetermineAuthTypeJob.finished j reply).2 = false
      ↔ endsWith reply.redirectionTarget.toString j.davPath = true := by
    constructor
    · intro h2
      by_contra hne
      have hf : endsWith reply.redirectionTarget.toString j.davPath = false := by
        simpa using hne
      rw [hforeign hf] at h2
      cases h2
    · intro h; rw [hfollow h]
  refine ⟨hiff, hfollow, hforeign, ?_⟩
  intro hq hf hp
  exact hiff.2 (QUrl.toString_endsWith_of_path _ _ hq hf hp)

/-- The theorem `same_service_test_is_on_url_string` at a same-service
redirect without query and at a redirect to an identity provider. -/
theorem same_service_test_is_on_url_string_witness :
    (DetermineAuthTypeJob.finished
        (DetermineAuthTypeJob.start Sample.davPath 10 false Sample.davUrl)
        Sample.redirectA).2 = false
    ∧ (DetermineAuthTypeJob.finished
        (DetermineAuthTypeJob.start Sample.davPath 10 false Sample.davUrl)
        Sample.redirectSaml).1.authType = [AuthType.Shibboleth] :=
  have h1 := (same_service_test_is_on_url_string
    (DetermineAuthTypeJob.start Sample.davPath 10 false Sample.davUrl) Sample.redirectA
    (by decide) (by decide) (by decide)).2.2.2 rfl rfl (by decide)
  have h2 := (same_service_test_is_on_url_string
    (DetermineAuthTypeJob.start Sample.davPath 10 false Sample.davUrl) Sample.redirectSaml
    (by decide) (by decide) (by decide)).2.2.1 (by decide)
  ⟨h1, by rw [h2]; decide⟩

end OCC
